import Mathlib

/-!
# multiclock: timers, alarms and the display pass

A shallow embedding of `src/multiclock.c`.  The two global arrays `timers` and
`alarms` become a `Store`; one pass of each of the three background loops
(`timer_countdown`, `alarm_check`, `update_time`) and one call of `set_timer` /
`set_alarm` become functions on the store.  Every pass runs with the store
mutex held, so a pass is an atomic step.

Modelling conventions

* C `int` fields are `Int`.  The flags `active` and `done` are C ints used as
  booleans: `x ≠ 0` is "true", exactly as `if (x)` reads them.
* `time_t` is `Int` (whole seconds).  `difftime(a, b)` is `a - b`; for whole
  second readings of realistic size the `double` result is exact.
* Values the code reads from its environment are arguments: the readings of
  `time(NULL)` and `localtime`, the value of `jingle_playing` at each check,
  the text returned by `getstr`, and the indeterminate content of
  uninitialised memory (`done_time` of the fresh struct, and the bytes of
  `input` behind the terminating NUL).
* Signed overflow in the duration parser wraps modulo `2^32` (`wrap32`).  The
  decrements of `timer_countdown` can only overflow at `INT_MIN`, which is
  outside every statement made here, and are plain subtraction.
* `getstr` is taken to return text that fits `char input[20]`; the parsers are
  modelled on the text as given.
* The flag `setting_time_or_alarm` only decides whether `update_time` runs its
  pass; `update_time_pass` is the pass that is not skipped, and a skipped one
  touches nothing.  `update_time_iteration` is one turn of the loop with the
  value read from the flag as argument; `Program` pairs the store with the
  flag to follow it through `set_timer` and `set_alarm`.
* `jingle` is one call taken on its own, with the outcomes of `Mix_OpenAudio`
  and `Mix_LoadWAV` as arguments and its actions recorded in order.
-/

namespace Multiclock

/-- Number of timer slots (`#define MAX_TIMERS 5`). -/
abbrev MAX_TIMERS : Nat := 5

/-- Number of alarm slots (`#define MAX_ALARMS 5`). -/
abbrev MAX_ALARMS : Nat := 5

/-- The C struct `Timer` (source lines 30-37). -/
@[ext] structure Timer where
  hours : Int
  minutes : Int
  seconds : Int
  active : Int
  done : Int
  done_time : Int
deriving DecidableEq, Repr

/-- The C struct `Alarm` (source lines 39-46). -/
@[ext] structure Alarm where
  hours : Int
  minutes : Int
  seconds : Int
  active : Int
  done : Int
  done_time : Int
deriving DecidableEq, Repr

/-- The Entry Store: the global arrays `timers[MAX_TIMERS]` and
`alarms[MAX_ALARMS]` (source lines 50-51). -/
@[ext] structure Store where
  timers : Fin MAX_TIMERS → Timer
  alarms : Fin MAX_ALARMS → Alarm

/-- Globals are zero-initialised. -/
def init : Store where
  timers := fun _ => ⟨0, 0, 0, 0, 0, 0⟩
  alarms := fun _ => ⟨0, 0, 0, 0, 0, 0⟩

/-- The index sequence of `for (int i = 0; i < MAX_TIMERS; ++i)` (and of the
loops over `MAX_ALARMS`, the same number). -/
def slots : List (Fin 5) := [0, 1, 2, 3, 4]

/-- The fields of `struct tm` the program reads. -/
structure Tm where
  tm_hour : Int
  tm_min : Int
  tm_sec : Int
deriving DecidableEq, Repr

/-- The function `difftime(a, b)` on whole-second readings. -/
def difftime (a b : Int) : Int := a - b

/-! ## timer_countdown -/

/-- Body of the `timer_countdown` loop for one slot (source lines 181-203);
`t` is the reading of `time(NULL)` taken when the slot reaches zero. -/
def countdown_slot (t : Int) (e : Timer) : Timer :=
  if e.active ≠ 0 ∧ e.done = 0 then
    if e.hours = 0 ∧ e.minutes = 0 ∧ e.seconds = 0 then
      { e with done := 1, done_time := t }
    else if e.seconds = 0 then
      if e.minutes = 0 then
        if e.hours > 0 then
          { e with hours := e.hours - 1, minutes := 59, seconds := 59 }
        else e
      else { e with minutes := e.minutes - 1, seconds := 59 }
    else { e with seconds := e.seconds - 1 }
  else e

/-- One pass of `timer_countdown` (the code between lock and unlock, source
lines 179-205); `clock i` is what `time(NULL)` returns while slot `i` is
handled. -/
def timer_countdown (clock : Fin MAX_TIMERS → Int) (st : Store) : Store :=
  { st with
    timers := slots.foldl
      (fun ts i => Function.update ts i (countdown_slot (clock i) (ts i))) st.timers }

/-- Run `n` passes of `timer_countdown`, pass `k` with clock `clocks k`. -/
def countdown_passes (clocks : Nat → Fin MAX_TIMERS → Int) : Nat → Store → Store
  | 0, st => st
  | n + 1, st => timer_countdown (clocks n) (countdown_passes clocks n st)

/-- Remaining time of a timer in seconds, `3600*hours + 60*minutes + seconds`. -/
def Timer.total (e : Timer) : Int := 3600 * e.hours + 60 * e.minutes + e.seconds

/-! ## alarm_check -/

/-- Body of the `alarm_check` loop for one slot (source lines 217-222). -/
def check_slot (now : Int) (t : Tm) (a : Alarm) : Alarm :=
  if a.active ≠ 0 ∧ a.done = 0 then
    if a.hours = t.tm_hour ∧ a.minutes = t.tm_min ∧ a.seconds = t.tm_sec then
      { a with done := 1, done_time := now }
    else a
  else a

/-- One pass of `alarm_check` (source lines 213-224); `now` and `t` are read
once per pass. -/
def alarm_check (now : Int) (t : Tm) (st : Store) : Store :=
  { st with
    alarms := slots.foldl
      (fun as i => Function.update as i (check_slot now t (as i))) st.alarms }

/-! ## update_time -/

/-- What a `mvprintw` call of `update_time` prints. -/
inductive Text where
  | current_time (h m s : Int)
  | timer_done
  | timer (h m s : Int)
  | alarm_done
  | alarm_set (h m s : Int)
deriving DecidableEq, Repr

/-- State carried through one `update_time` pass: the store, the row counter
(`timer_line`, then `alarm_line`), the `mvprintw` calls made since `clear()`
as (row, text) pairs in call order, and the number of jingle threads created. -/
structure Pass where
  timers : Fin MAX_TIMERS → Timer
  alarms : Fin MAX_ALARMS → Alarm
  line : Nat
  frame : List (Nat × Text)
  spawned : Nat

/-- The block guarded by `jingle_mutex` (source lines 124-130 and 150-156): a
thread is created when the flag `jingle_playing` reads zero. -/
def request_jingle (playing : Int) (spawned : Nat) : Nat :=
  if playing = 0 then spawned + 1 else spawned

/-- Body of the timer loop of `update_time` for slot `i` (source lines
118-139); `playing` is the value of `jingle_playing` at this slot's check. -/
def render_timer (now : Int) (playing : Int) (i : Fin MAX_TIMERS) (p : Pass) : Pass :=
  let e := p.timers i
  if e.active ≠ 0 then
    if e.done ≠ 0 then
      if difftime now e.done_time > 7 then
        { p with timers := Function.update p.timers i { e with active := 0 } }
      else
        { p with
          spawned := request_jingle playing p.spawned
          frame := p.frame ++ [(p.line, Text.timer_done)]
          line := p.line + 1 }
    else
      { p with
        frame := p.frame ++ [(p.line, Text.timer e.hours e.minutes e.seconds)]
        line := p.line + 1 }
  else p

/-- Body of the alarm loop of `update_time` for slot `i` (source lines
144-165). -/
def render_alarm (now : Int) (playing : Int) (i : Fin MAX_ALARMS) (p : Pass) : Pass :=
  let a := p.alarms i
  if a.active ≠ 0 then
    if a.done ≠ 0 then
      if difftime now a.done_time > 7 then
        { p with alarms := Function.update p.alarms i { a with active := 0 } }
      else
        { p with
          spawned := request_jingle playing p.spawned
          frame := p.frame ++ [(p.line, Text.alarm_done)]
          line := p.line + 1 }
    else
      { p with
        frame := p.frame ++ [(p.line, Text.alarm_set a.hours a.minutes a.seconds)]
        line := p.line + 1 }
  else p

/-- One non-skipped pass of `update_time` (the code between lock and unlock,
source lines 110-170):
the time on row 0, the timer loop from row 1, then the alarm loop continuing
at the row the timer loop stopped at.  `jt i` and `ja i` are the values of
`jingle_playing` read at the checks of timer slot `i` and alarm slot `i`. -/
def update_time_pass (now : Int) (t : Tm) (jt : Fin MAX_TIMERS → Int)
    (ja : Fin MAX_ALARMS → Int) (st : Store) : Pass :=
  let p0 : Pass :=
    { timers := st.timers, alarms := st.alarms, line := 1,
      frame := [(0, Text.current_time t.tm_hour t.tm_min t.tm_sec)], spawned := 0 }
  let p1 := slots.foldl (fun p i => render_timer now (jt i) i p) p0
  slots.foldl (fun p i => render_alarm now (ja i) i p) p1

/-- The store after one non-skipped `update_time` pass. -/
def update_time (now : Int) (t : Tm) (jt : Fin MAX_TIMERS → Int)
    (ja : Fin MAX_ALARMS → Int) (st : Store) : Store :=
  let p := update_time_pass now t jt ja st
  { timers := p.timers, alarms := p.alarms }

/-! ## set_timer -/

/-- Two's complement wrap of a C `int`. -/
def wrap32 (x : Int) : Int := (x + 2147483648) % 4294967296 - 2147483648

/-- The parsing loops of `set_timer` (source lines 247-265), run over the text
that is left.  `value`
is the number accumulated by the inner digit loop; every character that is not
a digit ends an outer iteration (the unit letters assign `value`, any other
character is skipped), after which the next outer iteration starts with
`value = 0`.  Digits at the end of the text are accumulated and dropped. -/
def parse_duration : Timer → Int → List Char → Timer
  | nt, _, [] => nt
  | nt, value, c :: cs =>
    if c.isDigit then
      parse_duration nt (wrap32 (value * 10 + ((c.toNat : Int) - 48))) cs
    else if c = 'h' then parse_duration { nt with hours := value } 0 cs
    else if c = 'm' then parse_duration { nt with minutes := value } 0 cs
    else if c = 's' then parse_duration { nt with seconds := value } 0 cs
    else parse_duration nt 0 cs

/-- The struct `new_timer` that `set_timer` builds from the typed text (source
lines 240-265); `junk` is the content of its uninitialised field `done_time`. -/
def new_timer (input : List Char) (junk : Int) : Timer :=
  parse_duration
    { hours := 0, minutes := 0, seconds := 0, active := 1, done := 0, done_time := junk }
    0 input

/-- The installation loop of `set_timer` (source lines 268-273): the first slot
that is not active receives the new entry and the loop breaks. -/
def install_timer (nt : Timer) :
    List (Fin MAX_TIMERS) → (Fin MAX_TIMERS → Timer) → (Fin MAX_TIMERS → Timer)
  | [], ts => ts
  | i :: rest, ts =>
    if (ts i).active = 0 then Function.update ts i nt else install_timer nt rest ts

/-- The effect of `set_timer` on the store. -/
def set_timer (input : List Char) (junk : Int) (st : Store) : Store :=
  { st with timers := install_timer (new_timer input junk) slots st.timers }

/-! ## set_alarm -/

/-- Byte `k` of the buffer `input` after `getstr`: the typed characters, the
terminating NUL, and behind it whatever the stack held (`pad`). -/
def input_byte (input : List Char) (pad : Nat → Int) (k : Nat) : Int :=
  match input.get? k with
  | some c => (c.toNat : Int)
  | none => if k = input.length then 0 else pad k

/-- The struct `new_alarm` that `set_alarm` builds (source lines 290-298);
`junk` is the content of its uninitialised field `done_time`. -/
def new_alarm (input : List Char) (pad : Nat → Int) (junk : Int) : Alarm :=
  { hours := (input_byte input pad 0 - 48) * 10 + (input_byte input pad 1 - 48)
    minutes := (input_byte input pad 2 - 48) * 10 + (input_byte input pad 3 - 48)
    seconds := (input_byte input pad 4 - 48) * 10 + (input_byte input pad 5 - 48)
    active := 1
    done := 0
    done_time := junk }

/-- The installation loop of `set_alarm` (source lines 301-306). -/
def install_alarm (na : Alarm) :
    List (Fin MAX_ALARMS) → (Fin MAX_ALARMS → Alarm) → (Fin MAX_ALARMS → Alarm)
  | [], as => as
  | i :: rest, as =>
    if (as i).active = 0 then Function.update as i na else install_alarm na rest as

/-- The effect of `set_alarm` on the store. -/
def set_alarm (input : List Char) (pad : Nat → Int) (junk : Int) (st : Store) : Store :=
  { st with alarms := install_alarm (new_alarm input pad junk) slots st.alarms }

/-! ## Steps -/

/-- One atomic step on the store: a pass of a background loop or a call of
`set_timer` / `set_alarm`, with the environment readings it uses. -/
inductive Op where
  | timer_countdown (clock : Fin MAX_TIMERS → Int)
  | alarm_check (now : Int) (t : Tm)
  | update_time (now : Int) (t : Tm) (jt : Fin MAX_TIMERS → Int) (ja : Fin MAX_ALARMS → Int)
  | set_timer (input : List Char) (junk : Int)
  | set_alarm (input : List Char) (pad : Nat → Int) (junk : Int)

/-- The store after a step. -/
def Op.apply : Op → Store → Store
  | Op.timer_countdown clock, st => Multiclock.timer_countdown clock st
  | Op.alarm_check now t, st => Multiclock.alarm_check now t st
  | Op.update_time now t jt ja, st => Multiclock.update_time now t jt ja st
  | Op.set_timer input junk, st => Multiclock.set_timer input junk st
  | Op.set_alarm input pad junk, st => Multiclock.set_alarm input pad junk st

/-- The store after a sequence of steps, first step first. -/
def run (ops : List Op) (st : Store) : Store :=
  ops.foldl (fun s op => op.apply s) st

/-- Whether the step is a `set_timer` call. -/
def Op.is_set_timer : Op → Bool
  | Op.set_timer _ _ => true
  | _ => false

/-- Whether the step is a `set_alarm` call. -/
def Op.is_set_alarm : Op → Bool
  | Op.set_alarm _ _ _ => true
  | _ => false

/-- Whether the step is a `timer_countdown` pass. -/
def Op.is_timer_countdown : Op → Bool
  | Op.timer_countdown _ => true
  | _ => false

/-- Whether the step is an `alarm_check` pass. -/
def Op.is_alarm_check : Op → Bool
  | Op.alarm_check _ _ => true
  | _ => false

/-- Whether the step is an `update_time` pass. -/
def Op.is_update_time : Op → Bool
  | Op.update_time _ _ _ _ => true
  | _ => false

/-- The moves of a slot's flags from `(active, done) = (a, d)` to `(a', d')`
in one step: the flags stay as they are, or the slot goes from free to
active and not done (allowed when `creating`), or from active and not done to
active and done (allowed when `detecting`), or from active and done to free
(allowed when `displaying`). -/
def Transition (creating detecting displaying : Bool) (a d a' d' : Int) : Prop :=
  (a' = a ∧ d' = d) ∨
  (creating = true ∧ a = 0 ∧ a' = 1 ∧ d' = 0) ∨
  (detecting = true ∧ a ≠ 0 ∧ d = 0 ∧ a' = a ∧ d' = 1) ∨
  (displaying = true ∧ a ≠ 0 ∧ d ≠ 0 ∧ a' = 0 ∧ d' = d)

/-! ## Auxiliary definitions: per-slot effects, sample stores, texts -/

/-- What an `update_time` pass does to one timer: a done entry whose grace
period is over is freed, every other entry is left alone. -/
def expire_timer (now : Int) (e : Timer) : Timer :=
  if e.active ≠ 0 ∧ e.done ≠ 0 ∧ difftime now e.done_time > 7 then { e with active := 0 } else e

/-- What an `update_time` pass does to one alarm. -/
def expire_alarm (now : Int) (a : Alarm) : Alarm :=
  if a.active ≠ 0 ∧ a.done ≠ 0 ∧ difftime now a.done_time > 7 then { a with active := 0 } else a

/-- A store whose timer slot 0 holds the running timer `00:01:05`. -/
def store_1m5s : Store :=
  { init with timers := Function.update init.timers 0 ⟨0, 1, 5, 1, 0, 0⟩ }

/-- A store whose timer slot 0 and alarm slot 0 hold done entries, both done
at time 100. -/
def store_done : Store :=
  { timers := Function.update init.timers 0 ⟨0, 0, 0, 1, 1, 100⟩
    alarms := Function.update init.alarms 0 ⟨8, 30, 0, 1, 1, 100⟩ }

/-- A store with all five timer slots and all five alarm slots occupied. -/
def store_full : Store :=
  { timers := fun _ => ⟨0, 10, 0, 1, 0, 0⟩
    alarms := fun _ => ⟨8, 30, 0, 1, 0, 0⟩ }

/-- A store whose alarm slot 0 holds the pending alarm `08:30:00`. -/
def store_0830 : Store :=
  { init with alarms := Function.update init.alarms 0 ⟨8, 30, 0, 1, 0, 0⟩ }

/-- The store after a sequence of `alarm_check` passes, one per reading. -/
def alarm_checks (readings : List (Int × Tm)) (st : Store) : Store :=
  readings.foldl (fun s r => alarm_check r.1 r.2 s) st

/-- The timer `0s` is created, found at zero by a countdown pass at time 100,
and freed by the display pass at time 108. -/
def freed_timer_ops : List Op :=
  [Op.set_timer ['0', 's'] 0, Op.timer_countdown (fun _ => 100),
   Op.update_time 108 ⟨0, 1, 48⟩ (fun _ => 0) (fun _ => 0)]

/-! ## The update_time loop and the editing flag -/

/-- What one iteration of the `while (1)` loop of `update_time` does: the store
it leaves, the frame handed to `refresh()` (`none` when the pass is skipped)
and the number of jingle threads created. -/
structure Iteration where
  store : Store
  pushed : Option (List (Nat × Text))
  spawned : Nat

/-- One iteration of the loop of `update_time` (source lines 108-173);
`setting_time_or_alarm` is the value of the flag read by
`if (!setting_time_or_alarm)`. -/
def update_time_iteration (setting_time_or_alarm : Int) (now : Int) (t : Tm)
    (jt : Fin MAX_TIMERS → Int) (ja : Fin MAX_ALARMS → Int) (st : Store) : Iteration :=
  if setting_time_or_alarm = 0 then
    let p := update_time_pass now t jt ja st
    { store := { timers := p.timers, alarms := p.alarms }
      pushed := some p.frame
      spawned := p.spawned }
  else { store := st, pushed := none, spawned := 0 }

/-- The store together with the global flag `setting_time_or_alarm`. -/
structure Program where
  store : Store
  setting_time_or_alarm : Int

/-- The program at start: zeroed arrays, `setting_time_or_alarm = 0`. -/
def Program.start : Program := { store := init, setting_time_or_alarm := 0 }

/-- First statement of `set_timer` and of `set_alarm` (source lines 232 and
282): the flag is set, after which the call blocks in `getstr`. -/
def begin_setting (g : Program) : Program := { g with setting_time_or_alarm := 1 }

/-- The rest of `set_timer` once `getstr` has returned (source lines 240-276):
parse, install, clear the flag. -/
def finish_set_timer (input : List Char) (junk : Int) (g : Program) : Program :=
  { store := set_timer input junk g.store, setting_time_or_alarm := 0 }

/-- The rest of `set_alarm` once `getstr` has returned (source lines
290-309). -/
def finish_set_alarm (input : List Char) (pad : Nat → Int) (junk : Int) (g : Program) :
    Program :=
  { store := set_alarm input pad junk g.store, setting_time_or_alarm := 0 }

/-- One iteration of the loop of `update_time` in program state `g`: the flag
it reads is the one `g` holds. -/
def update_time_turn (g : Program) (now : Int) (t : Tm)
    (jt : Fin MAX_TIMERS → Int) (ja : Fin MAX_ALARMS → Int) : Iteration :=
  update_time_iteration g.setting_time_or_alarm now t jt ja g.store

/-- The line the timer loop of `update_time` prints for an entry, if it prints
one: nothing for an inactive entry and for a done entry that the pass frees. -/
def timer_line (now : Int) (e : Timer) : Option Text :=
  if e.active ≠ 0 then
    if e.done ≠ 0 then
      if difftime now e.done_time > 7 then none else some Text.timer_done
    else some (Text.timer e.hours e.minutes e.seconds)
  else none

/-- The line the alarm loop of `update_time` prints for an entry, if any. -/
def alarm_line (now : Int) (a : Alarm) : Option Text :=
  if a.active ≠ 0 then
    if a.done ≠ 0 then
      if difftime now a.done_time > 7 then none else some Text.alarm_done
    else some (Text.alarm_set a.hours a.minutes a.seconds)
  else none

/-! ## jingle -/

/-- What a call of `jingle` does, in order: writes of the flag `jingle_playing`,
calls into SDL and the two error messages. -/
inductive Event where
  | set_jingle_playing (v : Int)
  | Mix_Init
  | Mix_OpenAudio
  | open_failed_message
  | Mix_LoadWAV
  | load_failed_message
  | Mix_PlayChannel
  | SDL_Delay (ms : Nat)
  | Mix_FreeChunk
  | Mix_CloseAudio
  | Mix_Quit
deriving DecidableEq, Repr

/-- The flag `jingle_playing` when the call returns, and what the call did. -/
structure JingleResult where
  jingle_playing : Int
  events : List Event
deriving DecidableEq, Repr

/-- One call of `jingle` (source lines 59-104), started with the flag at
`jingle_playing`; `open_ok`
says that `Mix_OpenAudio` did not return a negative value, `load_ok` that
`Mix_LoadWAV` did not return `NULL`.  Between its own two writes of the flag
no other thread writes it: every other call of `jingle` returns at the
check. -/
def jingle (jingle_playing : Int) (open_ok load_ok : Bool) : JingleResult :=
  if jingle_playing ≠ 0 then
    { jingle_playing := jingle_playing, events := [] }
  else if open_ok = false then
    { jingle_playing := 0
      events := [Event.set_jingle_playing 1, Event.Mix_Init, Event.Mix_OpenAudio,
        Event.open_failed_message, Event.set_jingle_playing 0] }
  else if load_ok = false then
    { jingle_playing := 0
      events := [Event.set_jingle_playing 1, Event.Mix_Init, Event.Mix_OpenAudio,
        Event.Mix_LoadWAV, Event.load_failed_message, Event.Mix_CloseAudio,
        Event.set_jingle_playing 0] }
  else
    { jingle_playing := 0
      events := [Event.set_jingle_playing 1, Event.Mix_Init, Event.Mix_OpenAudio,
        Event.Mix_LoadWAV, Event.Mix_PlayChannel, Event.SDL_Delay 8000, Event.Mix_FreeChunk,
        Event.Mix_CloseAudio, Event.Mix_Quit, Event.set_jingle_playing 0] }

/-! ## Conditions on inputs and readings -/

/-- Every run of digits in the text, counting `run` digits already read, has
at most 9 digits, so that the number it spells fits a C `int`. -/
def digit_runs_short : Nat → List Char → Bool
  | _, [] => true
  | run, c :: cs =>
    if c.isDigit then decide (run + 1 ≤ 9) && digit_runs_short (run + 1) cs
    else digit_runs_short 0 cs

/-- The text starts with six decimal digits. -/
def six_digits : List Char → Bool
  | c0 :: c1 :: c2 :: c3 :: c4 :: c5 :: _ =>
    c0.isDigit && c1.isDigit && c2.isDigit && c3.isDigit && c4.isDigit && c5.isDigit
  | _ => false

/-- The texts typed into a step are well formed: a duration whose numbers fit
an `int` for `set_timer`, six leading digits for `set_alarm`. -/
def Op.input_ok : Op → Bool
  | Op.set_timer input _ => digit_runs_short 0 input
  | Op.set_alarm input _ _ => six_digits input
  | _ => true

/-- A wall-clock reading as `localtime` gives it: hour 0..23, minute 0..59,
second 0..60. -/
def Tm.valid (t : Tm) : Bool :=
  decide (0 ≤ t.tm_hour ∧ t.tm_hour ≤ 23 ∧ 0 ≤ t.tm_min ∧ t.tm_min ≤ 59 ∧
    0 ≤ t.tm_sec ∧ t.tm_sec ≤ 60)

/-- The wall-clock reading used by a step, if it uses one, is valid. -/
def Op.clock_ok : Op → Bool
  | Op.alarm_check _ t => t.valid
  | Op.update_time _ t _ _ => t.valid
  | _ => true

/-! ## Sample stores and step sequences -/

/-- The store after `set_timer` with the text `1m5s` on the initial store. -/
def store_set_1m5s : Store := set_timer ['1', 'm', '5', 's'] 0 init

/-- A store with a pending timer in slot 0, a done timer in slot 2, a done
alarm in slot 1 and a pending alarm in slot 3; the done entries are done at
time 100. -/
def store_mixed : Store :=
  { timers := Function.update (Function.update init.timers 0 ⟨0, 1, 5, 1, 0, 0⟩) 2
      ⟨0, 0, 0, 1, 1, 100⟩
    alarms := Function.update (Function.update init.alarms 1 ⟨8, 30, 0, 1, 1, 100⟩) 3
      ⟨9, 15, 0, 1, 0, 0⟩ }

/-- The store after `set_alarm` with the text `990000` on the initial store. -/
def store_set_990000 : Store := set_alarm ['9', '9', '0', '0', '0', '0'] (fun _ => 0) 0 init

/-- A day in the life of the alarm `99:00:00`: checks at `23:59:59` and
`00:00:00`, a display pass, a countdown pass and two more entries set. -/
def sample_passes : List Op :=
  [Op.alarm_check 1000 ⟨23, 59, 59⟩, Op.alarm_check 1001 ⟨0, 0, 0⟩,
   Op.update_time 1001 ⟨0, 0, 0⟩ (fun _ => 0) (fun _ => 0),
   Op.timer_countdown (fun _ => 1001), Op.set_timer ['5', 's'] 0,
   Op.set_alarm ['0', '8', '3', '0', '0', '0'] (fun _ => 0) 0]

/-- The alarm text `-10000` is typed. -/
def negative_alarm_ops : List Op :=
  [Op.set_alarm ['-', '1', '0', '0', '0', '0'] (fun _ => 0) 0]

/-! ## The loops, slot by slot -/

/-- A loop over the five slots whose body rewrites only its own slot acts on
every slot independently. -/
theorem foldl_update_slots {α : Type} (f : Fin 5 → α → α) (ts : Fin 5 → α) :
    slots.foldl (fun ts i => Function.update ts i (f i (ts i))) ts = fun i => f i (ts i) := by
  funext j
  fin_cases j <;> simp [slots, Function.update]

theorem timer_countdown_timers (clock : Fin MAX_TIMERS → Int) (st : Store) (i : Fin MAX_TIMERS) :
    (timer_countdown clock st).timers i = countdown_slot (clock i) (st.timers i) := by
  simp only [timer_countdown]
  rw [foldl_update_slots (fun i e => countdown_slot (clock i) e)]

theorem timer_countdown_alarms (clock : Fin MAX_TIMERS → Int) (st : Store) :
    (timer_countdown clock st).alarms = st.alarms := rfl

theorem alarm_check_alarms (now : Int) (t : Tm) (st : Store) (i : Fin MAX_ALARMS) :
    (alarm_check now t st).alarms i = check_slot now t (st.alarms i) := by
  simp only [alarm_check]
  rw [foldl_update_slots (fun _ a => check_slot now t a)]

theorem alarm_check_timers (now : Int) (t : Tm) (st : Store) :
    (alarm_check now t st).timers = st.timers := rfl

theorem render_timer_timers (now playing : Int) (i : Fin MAX_TIMERS) (p : Pass) :
    (render_timer now playing i p).timers =
      Function.update p.timers i (expire_timer now (p.timers i)) := by
  unfold render_timer expire_timer
  by_cases h1 : (p.timers i).active ≠ 0 <;> by_cases h2 : (p.timers i).done ≠ 0 <;>
    by_cases h3 : difftime now (p.timers i).done_time > 7 <;> simp [h1, h2, h3]

theorem render_timer_alarms (now playing : Int) (i : Fin MAX_TIMERS) (p : Pass) :
    (render_timer now playing i p).alarms = p.alarms := by
  unfold render_timer
  simp only []
  split_ifs <;> rfl

theorem render_alarm_alarms (now playing : Int) (i : Fin MAX_ALARMS) (p : Pass) :
    (render_alarm now playing i p).alarms =
      Function.update p.alarms i (expire_alarm now (p.alarms i)) := by
  unfold render_alarm expire_alarm
  by_cases h1 : (p.alarms i).active ≠ 0 <;> by_cases h2 : (p.alarms i).done ≠ 0 <;>
    by_cases h3 : difftime now (p.alarms i).done_time > 7 <;> simp [h1, h2, h3]

theorem render_alarm_timers (now playing : Int) (i : Fin MAX_ALARMS) (p : Pass) :
    (render_alarm now playing i p).timers = p.timers := by
  unfold render_alarm
  simp only []
  split_ifs <;> rfl

theorem foldl_render_timer_timers (now : Int) (jt : Fin MAX_TIMERS → Int)
    (l : List (Fin MAX_TIMERS)) (p : Pass) :
    (l.foldl (fun p i => render_timer now (jt i) i p) p).timers =
      l.foldl (fun ts i => Function.update ts i (expire_timer now (ts i))) p.timers := by
  induction l generalizing p with
  | nil => rfl
  | cons i rest ih => simp only [List.foldl_cons]; rw [ih, render_timer_timers]

theorem foldl_render_timer_alarms (now : Int) (jt : Fin MAX_TIMERS → Int)
    (l : List (Fin MAX_TIMERS)) (p : Pass) :
    (l.foldl (fun p i => render_timer now (jt i) i p) p).alarms = p.alarms := by
  induction l generalizing p with
  | nil => rfl
  | cons i rest ih => simp only [List.foldl_cons]; rw [ih, render_timer_alarms]

theorem foldl_render_alarm_alarms (now : Int) (ja : Fin MAX_ALARMS → Int)
    (l : List (Fin MAX_ALARMS)) (p : Pass) :
    (l.foldl (fun p i => render_alarm now (ja i) i p) p).alarms =
      l.foldl (fun as i => Function.update as i (expire_alarm now (as i))) p.alarms := by
  induction l generalizing p with
  | nil => rfl
  | cons i rest ih => simp only [List.foldl_cons]; rw [ih, render_alarm_alarms]

theorem foldl_render_alarm_timers (now : Int) (ja : Fin MAX_ALARMS → Int)
    (l : List (Fin MAX_ALARMS)) (p : Pass) :
    (l.foldl (fun p i => render_alarm now (ja i) i p) p).timers = p.timers := by
  induction l generalizing p with
  | nil => rfl
  | cons i rest ih => simp only [List.foldl_cons]; rw [ih, render_alarm_timers]

theorem update_time_timers (now : Int) (t : Tm) (jt : Fin MAX_TIMERS → Int)
    (ja : Fin MAX_ALARMS → Int) (st : Store) (i : Fin MAX_TIMERS) :
    (update_time now t jt ja st).timers i = expire_timer now (st.timers i) := by
  simp only [update_time, update_time_pass]
  rw [foldl_render_alarm_timers, foldl_render_timer_timers,
    foldl_update_slots (fun _ e => expire_timer now e)]

theorem update_time_alarms (now : Int) (t : Tm) (jt : Fin MAX_TIMERS → Int)
    (ja : Fin MAX_ALARMS → Int) (st : Store) (i : Fin MAX_ALARMS) :
    (update_time now t jt ja st).alarms i = expire_alarm now (st.alarms i) := by
  simp only [update_time, update_time_pass]
  rw [foldl_render_alarm_alarms, foldl_render_timer_alarms,
    foldl_update_slots (fun _ a => expire_alarm now a)]

/-- The installation loop either leaves a slot as it was or, when the slot was
not active, puts the new entry there. -/
theorem install_timer_slot (nt : Timer) (l : List (Fin MAX_TIMERS))
    (ts : Fin MAX_TIMERS → Timer) (i : Fin MAX_TIMERS) :
    install_timer nt l ts i = ts i ∨ ((ts i).active = 0 ∧ install_timer nt l ts i = nt) := by
  induction l with
  | nil => exact Or.inl rfl
  | cons k rest ih =>
    unfold install_timer
    by_cases hk : (ts k).active = 0
    · rw [if_pos hk]
      by_cases hik : i = k
      · subst hik; exact Or.inr ⟨hk, by simp⟩
      · exact Or.inl (by simp [Function.update, hik])
    · rw [if_neg hk]; exact ih

theorem install_alarm_slot (na : Alarm) (l : List (Fin MAX_ALARMS))
    (as : Fin MAX_ALARMS → Alarm) (i : Fin MAX_ALARMS) :
    install_alarm na l as i = as i ∨ ((as i).active = 0 ∧ install_alarm na l as i = na) := by
  induction l with
  | nil => exact Or.inl rfl
  | cons k rest ih =>
    unfold install_alarm
    by_cases hk : (as k).active = 0
    · rw [if_pos hk]
      by_cases hik : i = k
      · subst hik; exact Or.inr ⟨hk, by simp⟩
      · exact Or.inl (by simp [Function.update, hik])
    · rw [if_neg hk]; exact ih

/-- With every slot active the installation loop changes nothing. -/
theorem install_timer_full (nt : Timer) (l : List (Fin MAX_TIMERS))
    (ts : Fin MAX_TIMERS → Timer) (h : ∀ i, (ts i).active ≠ 0) :
    install_timer nt l ts = ts := by
  induction l with
  | nil => rfl
  | cons k rest ih => unfold install_timer; rw [if_neg (h k)]; exact ih

theorem install_alarm_full (na : Alarm) (l : List (Fin MAX_ALARMS))
    (as : Fin MAX_ALARMS → Alarm) (h : ∀ i, (as i).active ≠ 0) :
    install_alarm na l as = as := by
  induction l with
  | nil => rfl
  | cons k rest ih => unfold install_alarm; rw [if_neg (h k)]; exact ih

/-- The installation loop writes the first slot that is not active. -/
theorem install_timer_first (nt : Timer) (ts : Fin MAX_TIMERS → Timer) (k : Fin MAX_TIMERS)
    (hk : (ts k).active = 0) (hlt : ∀ j, j < k → (ts j).active ≠ 0) :
    install_timer nt slots ts = Function.update ts k nt := by
  fin_cases k
  · simp only [slots, install_timer]
    exact if_pos hk
  · have h0 := hlt 0 (by decide)
    simp only [slots, install_timer, if_neg h0]
    exact if_pos hk
  · have h0 := hlt 0 (by decide)
    have h1 := hlt 1 (by decide)
    simp only [slots, install_timer, if_neg h0, if_neg h1]
    exact if_pos hk
  · have h0 := hlt 0 (by decide)
    have h1 := hlt 1 (by decide)
    have h2 := hlt 2 (by decide)
    simp only [slots, install_timer, if_neg h0, if_neg h1, if_neg h2]
    exact if_pos hk
  · have h0 := hlt 0 (by decide)
    have h1 := hlt 1 (by decide)
    have h2 := hlt 2 (by decide)
    have h3 := hlt 3 (by decide)
    simp only [slots, install_timer, if_neg h0, if_neg h1, if_neg h2, if_neg h3]
    exact if_pos hk

theorem install_alarm_first (na : Alarm) (as : Fin MAX_ALARMS → Alarm) (k : Fin MAX_ALARMS)
    (hk : (as k).active = 0) (hlt : ∀ j, j < k → (as j).active ≠ 0) :
    install_alarm na slots as = Function.update as k na := by
  fin_cases k
  · simp only [slots, install_alarm]
    exact if_pos hk
  · have h0 := hlt 0 (by decide)
    simp only [slots, install_alarm, if_neg h0]
    exact if_pos hk
  · have h0 := hlt 0 (by decide)
    have h1 := hlt 1 (by decide)
    simp only [slots, install_alarm, if_neg h0, if_neg h1]
    exact if_pos hk
  · have h0 := hlt 0 (by decide)
    have h1 := hlt 1 (by decide)
    have h2 := hlt 2 (by decide)
    simp only [slots, install_alarm, if_neg h0, if_neg h1, if_neg h2]
    exact if_pos hk
  · have h0 := hlt 0 (by decide)
    have h1 := hlt 1 (by decide)
    have h2 := hlt 2 (by decide)
    have h3 := hlt 3 (by decide)
    simp only [slots, install_alarm, if_neg h0, if_neg h1, if_neg h2, if_neg h3]
    exact if_pos hk

/-- Among five slots of which one satisfies `P`, there is a first one. -/
theorem exists_first_slot (P : Fin 5 → Prop) (h : ∃ i, P i) :
    ∃ k, P k ∧ ∀ j, j < k → ¬ P j := by
  classical
  by_cases h0 : P 0
  · exact ⟨0, h0, fun j hj => absurd hj (by omega)⟩
  by_cases h1 : P 1
  · exact ⟨1, h1, fun j hj => by fin_cases j <;> simp_all⟩
  by_cases h2 : P 2
  · exact ⟨2, h2, fun j hj => by fin_cases j <;> simp_all⟩
  by_cases h3 : P 3
  · exact ⟨3, h3, fun j hj => by fin_cases j <;> simp_all⟩
  by_cases h4 : P 4
  · exact ⟨4, h4, fun j hj => by fin_cases j <;> simp_all⟩
  obtain ⟨i, hi⟩ := h
  fin_cases i <;> simp_all

/-! ## Counting down -/

/-- On a running timer with non-negative fields and time left, the loop body
takes off exactly one second and leaves the timer running. -/
theorem countdown_slot_running (t : Int) (e : Timer)
    (ha : e.active ≠ 0) (hd : e.done = 0)
    (hh : 0 ≤ e.hours) (hm : 0 ≤ e.minutes) (hs : 0 ≤ e.seconds) (hpos : 0 < e.total) :
    (countdown_slot t e).active = e.active ∧ (countdown_slot t e).done = 0 ∧
    0 ≤ (countdown_slot t e).hours ∧ 0 ≤ (countdown_slot t e).minutes ∧
    0 ≤ (countdown_slot t e).seconds ∧ (countdown_slot t e).total = e.total - 1 := by
  unfold Timer.total at hpos ⊢
  unfold countdown_slot
  split_ifs <;> refine ⟨?_, ?_, ?_, ?_, ?_, ?_⟩ <;> first | rfl | omega | (simp only []; omega)

/-- The state of a running timer after `N` passes, as long as `N` does not
exceed the time it started with. -/
theorem countdown_passes_running (st : Store) (clocks : Nat → Fin MAX_TIMERS → Int)
    (i : Fin MAX_TIMERS) (ha : (st.timers i).active ≠ 0) (hd : (st.timers i).done = 0)
    (hh : 0 ≤ (st.timers i).hours) (hm : 0 ≤ (st.timers i).minutes)
    (hs : 0 ≤ (st.timers i).seconds) :
    ∀ N : Nat, (N : Int) ≤ (st.timers i).total →
      ((countdown_passes clocks N st).timers i).active = (st.timers i).active ∧
      ((countdown_passes clocks N st).timers i).done = 0 ∧
      0 ≤ ((countdown_passes clocks N st).timers i).hours ∧
      0 ≤ ((countdown_passes clocks N st).timers i).minutes ∧
      0 ≤ ((countdown_passes clocks N st).timers i).seconds ∧
      ((countdown_passes clocks N st).timers i).total = (st.timers i).total - N := by
  intro N
  induction N with
  | zero => intro _; simp [countdown_passes, hd, hh, hm, hs]
  | succ n ih =>
    intro hN
    have hn : (n : Int) ≤ (st.timers i).total := by push_cast at hN; omega
    obtain ⟨a1, a2, a3, a4, a5, a6⟩ := ih hn
    have hpos : 0 < ((countdown_passes clocks n st).timers i).total := by
      rw [a6]; push_cast at hN; omega
    have hact : ((countdown_passes clocks n st).timers i).active ≠ 0 := by rw [a1]; exact ha
    obtain ⟨b1, b2, b3, b4, b5, b6⟩ :=
      countdown_slot_running (clocks n i) _ hact a2 a3 a4 a5 hpos
    simp only [countdown_passes, timer_countdown_timers]
    refine ⟨by rw [b1, a1], b2, b3, b4, b5, ?_⟩
    rw [b6, a6]; push_cast; ring

/-- C1: for a timer slot that is active and not done, with non-negative hours,
minutes and seconds and total `T = 3600*hours + 60*minutes + seconds`, and for
every `N ≤ T`, the remaining total after exactly `N` passes of
`timer_countdown` is `T - N`. -/
theorem timer_countdown_total_after_passes (st : Store)
    (clocks : Nat → Fin MAX_TIMERS → Int) (i : Fin MAX_TIMERS) (N : Nat)
    (ha : (st.timers i).active ≠ 0) (hd : (st.timers i).done = 0)
    (hh : 0 ≤ (st.timers i).hours) (hm : 0 ≤ (st.timers i).minutes)
    (hs : 0 ≤ (st.timers i).seconds) (hN : (N : Int) ≤ (st.timers i).total) :
    ((countdown_passes clocks N st).timers i).total = (st.timers i).total - N :=
  (countdown_passes_running st clocks i ha hd hh hm hs N hN).2.2.2.2.2

/-- Witness for C1: the timer `00:01:05` after 7 passes has 58 seconds left. -/
theorem timer_countdown_total_after_passes_witness :
    (store_1m5s.timers 0).total = 65 ∧
    ((countdown_passes (fun _ _ => 0) 7 store_1m5s).timers 0).total = 65 - 7 := by
  have h := timer_countdown_total_after_passes store_1m5s (fun _ _ => 0) 0 7
    (by decide) (by decide) (by decide) (by decide) (by decide) (by decide)
  exact ⟨by decide, h⟩

/-! ## Done entries -/

theorem countdown_slot_of_done (t : Int) (e : Timer) (h : e.done ≠ 0) :
    countdown_slot t e = e := by
  unfold countdown_slot
  rw [if_neg (fun hc => h hc.2)]

theorem check_slot_of_done (now : Int) (t : Tm) (a : Alarm) (h : a.done ≠ 0) :
    check_slot now t a = a := by
  unfold check_slot
  rw [if_neg (fun hc => h hc.2)]

theorem expire_timer_fields (now : Int) (e : Timer) :
    (expire_timer now e).hours = e.hours ∧ (expire_timer now e).minutes = e.minutes ∧
    (expire_timer now e).seconds = e.seconds ∧ (expire_timer now e).done = e.done ∧
    (expire_timer now e).done_time = e.done_time := by
  unfold expire_timer
  split_ifs <;> exact ⟨rfl, rfl, rfl, rfl, rfl⟩

theorem expire_alarm_fields (now : Int) (a : Alarm) :
    (expire_alarm now a).hours = a.hours ∧ (expire_alarm now a).minutes = a.minutes ∧
    (expire_alarm now a).seconds = a.seconds ∧ (expire_alarm now a).done = a.done ∧
    (expire_alarm now a).done_time = a.done_time := by
  unfold expire_alarm
  split_ifs <;> exact ⟨rfl, rfl, rfl, rfl, rfl⟩

theorem set_timer_of_active (input : List Char) (junk : Int) (st : Store) (i : Fin MAX_TIMERS)
    (h : (st.timers i).active ≠ 0) : (set_timer input junk st).timers i = st.timers i := by
  rcases install_timer_slot (new_timer input junk) slots st.timers i with h1 | ⟨h1, _⟩
  · exact h1
  · exact absurd h1 h

theorem set_alarm_of_active (input : List Char) (pad : Nat → Int) (junk : Int) (st : Store)
    (i : Fin MAX_ALARMS) (h : (st.alarms i).active ≠ 0) :
    (set_alarm input pad junk st).alarms i = st.alarms i := by
  rcases install_alarm_slot (new_alarm input pad junk) slots st.alarms i with h1 | ⟨h1, _⟩
  · exact h1
  · exact absurd h1 h

/-- C2: in every store and for every single step (a `timer_countdown`,
`alarm_check` or `update_time` pass, `set_timer`, `set_alarm`), a Timer or
Alarm slot that is active and done before the step has the same `done` (so
`done = 1` stays `done = 1`) and the same `done_time` after it. -/
theorem done_and_done_time_kept (st : Store) (op : Op) :
    (∀ i, (st.timers i).active ≠ 0 → (st.timers i).done ≠ 0 →
      ((op.apply st).timers i).done = (st.timers i).done ∧
      ((op.apply st).timers i).done_time = (st.timers i).done_time) ∧
    (∀ i, (st.alarms i).active ≠ 0 → (st.alarms i).done ≠ 0 →
      ((op.apply st).alarms i).done = (st.alarms i).done ∧
      ((op.apply st).alarms i).done_time = (st.alarms i).done_time) := by
  cases op with
  | timer_countdown clock =>
    refine ⟨fun i _ hd => ?_, fun i _ _ => ⟨rfl, rfl⟩⟩
    simp only [Op.apply, timer_countdown_timers, countdown_slot_of_done _ _ hd, and_self]
  | alarm_check now t =>
    refine ⟨fun i _ _ => ⟨rfl, rfl⟩, fun i _ hd => ?_⟩
    simp only [Op.apply, alarm_check_alarms, check_slot_of_done _ _ _ hd, and_self]
  | update_time now t jt ja =>
    refine ⟨fun i _ _ => ?_, fun i _ _ => ?_⟩
    · simp only [Op.apply, update_time_timers]
      exact ⟨(expire_timer_fields now _).2.2.2.1, (expire_timer_fields now _).2.2.2.2⟩
    · simp only [Op.apply, update_time_alarms]
      exact ⟨(expire_alarm_fields now _).2.2.2.1, (expire_alarm_fields now _).2.2.2.2⟩
  | set_timer input junk =>
    refine ⟨fun i ha _ => ?_, fun i _ _ => ⟨rfl, rfl⟩⟩
    simp only [Op.apply, set_timer_of_active input junk st i ha, and_self]
  | set_alarm input pad junk =>
    refine ⟨fun i _ _ => ⟨rfl, rfl⟩, fun i ha _ => ?_⟩
    simp only [Op.apply, set_alarm_of_active input pad junk st i ha, and_self]

/-- Witness for C2: an `update_time` pass long after expiry keeps `done = 1` and
`done_time = 100` on the done timer and the done alarm of `store_done`. -/
theorem done_and_done_time_kept_witness :
    (((Op.update_time 500 ⟨8, 38, 20⟩ (fun _ => 0) (fun _ => 0)).apply store_done).timers 0).done
        = 1 ∧
    (((Op.update_time 500 ⟨8, 38, 20⟩ (fun _ => 0) (fun _ => 0)).apply store_done).timers 0).done_time
        = 100 ∧
    (((Op.update_time 500 ⟨8, 38, 20⟩ (fun _ => 0) (fun _ => 0)).apply store_done).alarms 0).done
        = 1 ∧
    (((Op.update_time 500 ⟨8, 38, 20⟩ (fun _ => 0) (fun _ => 0)).apply store_done).alarms 0).done_time
        = 100 := by
  have h := done_and_done_time_kept store_done
    (Op.update_time 500 ⟨8, 38, 20⟩ (fun _ => 0) (fun _ => 0))
  have ht := h.1 0 (by decide) (by decide)
  have ha := h.2 0 (by decide) (by decide)
  exact ⟨ht.1, ht.2, ha.1, ha.2⟩

/-! ## The grace period -/

/-- C3: for an active, done Timer or Alarm with `done_time = d` and a
non-skipped `update_time` pass running at time `now`: if `now - d ≤ 7` the
loop body for its slot leaves the entry as it is (still active) and prints
the DONE line on the current row, and the entry is still active after the
pass; if `now - d ≥ 8` the loop body sets `active = 0` and prints nothing, and
the entry is inactive after the pass. -/
theorem grace_period (now : Int) (t : Tm) (jt : Fin MAX_TIMERS → Int)
    (ja : Fin MAX_ALARMS → Int) (st : Store) (playing : Int) :
    (∀ i, (st.timers i).active ≠ 0 → (st.timers i).done ≠ 0 →
      (now - (st.timers i).done_time ≤ 7 →
        (update_time now t jt ja st).timers i = st.timers i ∧
        ∀ p : Pass, p.timers i = st.timers i →
          (render_timer now playing i p).timers i = st.timers i ∧
          (render_timer now playing i p).frame = p.frame ++ [(p.line, Text.timer_done)] ∧
          (render_timer now playing i p).line = p.line + 1) ∧
      (now - (st.timers i).done_time ≥ 8 →
        ((update_time now t jt ja st).timers i).active = 0 ∧
        ∀ p : Pass, p.timers i = st.timers i →
          ((render_timer now playing i p).timers i).active = 0 ∧
          (render_timer now playing i p).frame = p.frame ∧
          (render_timer now playing i p).line = p.line)) ∧
    (∀ i, (st.alarms i).active ≠ 0 → (st.alarms i).done ≠ 0 →
      (now - (st.alarms i).done_time ≤ 7 →
        (update_time now t jt ja st).alarms i = st.alarms i ∧
        ∀ p : Pass, p.alarms i = st.alarms i →
          (render_alarm now playing i p).alarms i = st.alarms i ∧
          (render_alarm now playing i p).frame = p.frame ++ [(p.line, Text.alarm_done)] ∧
          (render_alarm now playing i p).line = p.line + 1) ∧
      (now - (st.alarms i).done_time ≥ 8 →
        ((update_time now t jt ja st).alarms i).active = 0 ∧
        ∀ p : Pass, p.alarms i = st.alarms i →
          ((render_alarm now playing i p).alarms i).active = 0 ∧
          (render_alarm now playing i p).frame = p.frame ∧
          (render_alarm now playing i p).line = p.line)) := by
  refine ⟨fun i ha hd => ⟨fun hle => ⟨?_, fun p hp => ?_⟩, fun hge => ⟨?_, fun p hp => ?_⟩⟩,
    fun i ha hd => ⟨fun hle => ⟨?_, fun p hp => ?_⟩, fun hge => ⟨?_, fun p hp => ?_⟩⟩⟩
  · rw [update_time_timers]
    unfold expire_timer difftime
    rw [if_neg (by intro hc; have := hc.2.2; omega)]
  · have h3 : ¬ (now - (p.timers i).done_time > 7) := by rw [hp]; omega
    rw [← hp] at ha hd
    simp [render_timer, difftime, ha, hd, h3, hp.symm]
  · rw [update_time_timers]
    unfold expire_timer difftime
    rw [if_pos ⟨ha, hd, by omega⟩]
  · have h3 : now - (p.timers i).done_time > 7 := by rw [hp]; omega
    rw [← hp] at ha hd
    simp [render_timer, difftime, ha, hd, h3]
  · rw [update_time_alarms]
    unfold expire_alarm difftime
    rw [if_neg (by intro hc; have := hc.2.2; omega)]
  · have h3 : ¬ (now - (p.alarms i).done_time > 7) := by rw [hp]; omega
    rw [← hp] at ha hd
    simp [render_alarm, difftime, ha, hd, h3, hp.symm]
  · rw [update_time_alarms]
    unfold expire_alarm difftime
    rw [if_pos ⟨ha, hd, by omega⟩]
  · have h3 : now - (p.alarms i).done_time > 7 := by rw [hp]; omega
    rw [← hp] at ha hd
    simp [render_alarm, difftime, ha, hd, h3]

/-- Witness for C3: the timer of `store_done` (done at 100) is still active
after a pass at 107 and inactive after a pass at 108; the alarm likewise. -/
theorem grace_period_witness :
    (update_time 107 ⟨8, 30, 7⟩ (fun _ => 0) (fun _ => 0) store_done).timers 0
      = store_done.timers 0 ∧
    ((update_time 108 ⟨8, 30, 8⟩ (fun _ => 0) (fun _ => 0) store_done).timers 0).active = 0 ∧
    (update_time 107 ⟨8, 30, 7⟩ (fun _ => 0) (fun _ => 0) store_done).alarms 0
      = store_done.alarms 0 ∧
    ((update_time 108 ⟨8, 30, 8⟩ (fun _ => 0) (fun _ => 0) store_done).alarms 0).active = 0 :=
  ⟨(((grace_period 107 ⟨8, 30, 7⟩ (fun _ => 0) (fun _ => 0) store_done 0).1 0
      (by decide) (by decide)).1 (by decide)).1,
   (((grace_period 108 ⟨8, 30, 8⟩ (fun _ => 0) (fun _ => 0) store_done 0).1 0
      (by decide) (by decide)).2 (by decide)).1,
   (((grace_period 107 ⟨8, 30, 7⟩ (fun _ => 0) (fun _ => 0) store_done 0).2 0
      (by decide) (by decide)).1 (by decide)).1,
   (((grace_period 108 ⟨8, 30, 8⟩ (fun _ => 0) (fun _ => 0) store_done 0).2 0
      (by decide) (by decide)).2 (by decide)).1⟩

/-! ## Installing a new entry -/

/-- C4: when all 5 Timer slots are active, `set_timer` leaves the whole store
unchanged for every input; likewise `set_alarm` when all 5 Alarm slots are
active. -/
theorem set_on_full_store (st : Store) :
    ((∀ i, (st.timers i).active ≠ 0) →
      ∀ (input : List Char) (junk : Int), set_timer input junk st = st) ∧
    ((∀ i, (st.alarms i).active ≠ 0) →
      ∀ (input : List Char) (pad : Nat → Int) (junk : Int), set_alarm input pad junk st = st) := by
  refine ⟨fun h input junk => ?_, fun h input pad junk => ?_⟩
  · simp only [set_timer, install_timer_full _ _ _ h]
  · simp only [set_alarm, install_alarm_full _ _ _ h]

/-- Witness for C4: a sixth timer `"1m5s"` and a sixth alarm `"083000"` leave
`store_full` unchanged. -/
theorem set_on_full_store_witness :
    set_timer ['1', 'm', '5', 's'] 0 store_full = store_full ∧
    set_alarm ['0', '8', '3', '0', '0', '0'] (fun _ => 0) 0 store_full = store_full :=
  ⟨(set_on_full_store store_full).1 (by decide) ['1', 'm', '5', 's'] 0,
   (set_on_full_store store_full).2 (by decide) ['0', '8', '3', '0', '0', '0'] (fun _ => 0) 0⟩

theorem parse_duration_flags (nt : Timer) (value : Int) (input : List Char) :
    (parse_duration nt value input).active = nt.active ∧
    (parse_duration nt value input).done = nt.done ∧
    (parse_duration nt value input).done_time = nt.done_time := by
  induction input generalizing nt value with
  | nil => exact ⟨rfl, rfl, rfl⟩
  | cons c cs ih =>
    unfold parse_duration
    split_ifs
    · exact ih _ _
    · exact ih _ _
    · exact ih _ _
    · exact ih _ _
    · exact ih _ _

/-- C5: when at least one Timer slot is inactive, `set_timer` puts the new
entry (the parsed hours, minutes and seconds, `done = 0`, `active = 1`) into
the inactive Timer slot of lowest index and leaves every other Timer slot and
every Alarm slot unchanged; `set_alarm` does the same on the Alarm slots. -/
theorem set_installs_in_first_free (st : Store) :
    ((∃ i, (st.timers i).active = 0) →
      ∀ (input : List Char) (junk : Int), ∃ k,
        (st.timers k).active = 0 ∧ (∀ j, j < k → (st.timers j).active ≠ 0) ∧
        (set_timer input junk st).timers k = new_timer input junk ∧
        (new_timer input junk).active = 1 ∧ (new_timer input junk).done = 0 ∧
        (∀ j, j ≠ k → (set_timer input junk st).timers j = st.timers j) ∧
        (set_timer input junk st).alarms = st.alarms) ∧
    ((∃ i, (st.alarms i).active = 0) →
      ∀ (input : List Char) (pad : Nat → Int) (junk : Int), ∃ k,
        (st.alarms k).active = 0 ∧ (∀ j, j < k → (st.alarms j).active ≠ 0) ∧
        (set_alarm input pad junk st).alarms k = new_alarm input pad junk ∧
        (new_alarm input pad junk).active = 1 ∧ (new_alarm input pad junk).done = 0 ∧
        (∀ j, j ≠ k → (set_alarm input pad junk st).alarms j = st.alarms j) ∧
        (set_alarm input pad junk st).timers = st.timers) := by
  refine ⟨fun h input junk => ?_, fun h input pad junk => ?_⟩
  · obtain ⟨k, hk, hlt⟩ := exists_first_slot (fun i => (st.timers i).active = 0) h
    refine ⟨k, hk, hlt, ?_, (parse_duration_flags _ _ _).1, (parse_duration_flags _ _ _).2.1,
      fun j hj => ?_, rfl⟩
    · simp only [set_timer, install_timer_first _ _ k hk hlt, Function.update_same]
    · simp only [set_timer, install_timer_first _ _ k hk hlt, Function.update_noteq hj]
  · obtain ⟨k, hk, hlt⟩ := exists_first_slot (fun i => (st.alarms i).active = 0) h
    refine ⟨k, hk, hlt, ?_, rfl, rfl, fun j hj => ?_, rfl⟩
    · simp only [set_alarm, install_alarm_first _ _ k hk hlt, Function.update_same]
    · simp only [set_alarm, install_alarm_first _ _ k hk hlt, Function.update_noteq hj]

/-- Witness for C5: `store_1m5s` has free Timer and Alarm slots, so both
installations take place. -/
theorem set_installs_in_first_free_witness :
    (∃ k, (store_1m5s.timers k).active = 0 ∧
      (∀ j, j < k → (store_1m5s.timers j).active ≠ 0) ∧
      (set_timer ['3', '0', 's'] 0 store_1m5s).timers k = new_timer ['3', '0', 's'] 0 ∧
      (new_timer ['3', '0', 's'] 0).active = 1 ∧ (new_timer ['3', '0', 's'] 0).done = 0 ∧
      (∀ j, j ≠ k → (set_timer ['3', '0', 's'] 0 store_1m5s).timers j = store_1m5s.timers j) ∧
      (set_timer ['3', '0', 's'] 0 store_1m5s).alarms = store_1m5s.alarms) ∧
    (∃ k, (store_1m5s.alarms k).active = 0 ∧
      (∀ j, j < k → (store_1m5s.alarms j).active ≠ 0) ∧
      (set_alarm ['0', '8', '3', '0', '0', '0'] (fun _ => 0) 0 store_1m5s).alarms k
        = new_alarm ['0', '8', '3', '0', '0', '0'] (fun _ => 0) 0 ∧
      (new_alarm ['0', '8', '3', '0', '0', '0'] (fun _ => 0) 0).active = 1 ∧
      (new_alarm ['0', '8', '3', '0', '0', '0'] (fun _ => 0) 0).done = 0 ∧
      (∀ j, j ≠ k → (set_alarm ['0', '8', '3', '0', '0', '0'] (fun _ => 0) 0 store_1m5s).alarms j
        = store_1m5s.alarms j) ∧
      (set_alarm ['0', '8', '3', '0', '0', '0'] (fun _ => 0) 0 store_1m5s).timers
        = store_1m5s.timers) :=
  ⟨(set_installs_in_first_free store_1m5s).1 ⟨1, by decide⟩ ['3', '0', 's'] 0,
   (set_installs_in_first_free store_1m5s).2 ⟨0, by decide⟩
     ['0', '8', '3', '0', '0', '0'] (fun _ => 0) 0⟩

/-! ## The duration parser -/

theorem wrap32_of_small (x : Int) (h0 : 0 ≤ x) (h1 : x < 2147483648) : wrap32 x = x := by
  unfold wrap32
  omega

theorem digitChar_isDigit (d : Nat) (h : d < 10) :
    (Nat.digitChar d).isDigit = true ∧ ((Nat.digitChar d).toNat : Int) - 48 = d := by
  interval_cases d <;> exact ⟨by decide, by decide⟩

/-- C7: for an input whose first six characters are the decimal digits
`d0 .. d5`, `set_alarm` builds an Alarm with `hours = 10*d0 + d1`,
`minutes = 10*d2 + d3`, `seconds = 10*d4 + d5`, `done = 0` and `active = 1`. -/
theorem new_alarm_of_digits (d0 d1 d2 d3 d4 d5 : Nat) (rest : List Char)
    (pad : Nat → Int) (junk : Int)
    (h0 : d0 < 10) (h1 : d1 < 10) (h2 : d2 < 10) (h3 : d3 < 10) (h4 : d4 < 10) (h5 : d5 < 10) :
    new_alarm (Nat.digitChar d0 :: Nat.digitChar d1 :: Nat.digitChar d2 :: Nat.digitChar d3 ::
        Nat.digitChar d4 :: Nat.digitChar d5 :: rest) pad junk =
      { hours := 10 * (d0 : Int) + d1, minutes := 10 * (d2 : Int) + d3,
        seconds := 10 * (d4 : Int) + d5, active := 1, done := 0, done_time := junk } := by
  have e0 := (digitChar_isDigit d0 h0).2
  have e1 := (digitChar_isDigit d1 h1).2
  have e2 := (digitChar_isDigit d2 h2).2
  have e3 := (digitChar_isDigit d3 h3).2
  have e4 := (digitChar_isDigit d4 h4).2
  have e5 := (digitChar_isDigit d5 h5).2
  simp only [new_alarm, input_byte, List.get?]
  rw [e0, e1, e2, e3, e4, e5]
  ext <;> simp only [] <;> ring

/-- Witness for C7: the text `083000` yields hours 8, minutes 30, seconds 0. -/
theorem new_alarm_of_digits_witness :
    new_alarm ['0', '8', '3', '0', '0', '0'] (fun _ => 0) 0 =
      { hours := 8, minutes := 30, seconds := 0, active := 1, done := 0, done_time := 0 } :=
  new_alarm_of_digits 0 8 3 0 0 0 [] (fun _ => 0) 0
    (by decide) (by decide) (by decide) (by decide) (by decide) (by decide)

/-! ## Checking the alarms -/

theorem check_slot_no_match (now : Int) (t : Tm) (a : Alarm)
    (h : ¬ (a.hours = t.tm_hour ∧ a.minutes = t.tm_min ∧ a.seconds = t.tm_sec)) :
    check_slot now t a = a := by
  unfold check_slot
  split_ifs <;> rfl

theorem alarm_checks_no_match (i : Fin MAX_ALARMS) (readings : List (Int × Tm)) :
    ∀ st : Store,
    (∀ r ∈ readings, ¬ ((st.alarms i).hours = r.2.tm_hour ∧ (st.alarms i).minutes = r.2.tm_min ∧
      (st.alarms i).seconds = r.2.tm_sec)) →
    (alarm_checks readings st).alarms i = st.alarms i := by
  induction readings with
  | nil => intro st _; rfl
  | cons r rs ih =>
    intro st h
    have hr := h r (List.mem_cons_self r rs)
    have hstep : (alarm_check r.1 r.2 st).alarms i = st.alarms i := by
      rw [alarm_check_alarms, check_slot_no_match _ _ _ hr]
    have := ih (alarm_check r.1 r.2 st) (fun x hx => by
      rw [hstep]; exact h x (List.mem_cons_of_mem r hx))
    simp only [alarm_checks, List.foldl_cons] at this ⊢
    rw [this, hstep]

/-- C8: one `alarm_check` pass with wall-clock reading `t` at time `now` sets
`done = 1` and `done_time = now` on exactly the Alarm slots that are active,
not done and whose hours, minutes and seconds equal the reading; every other
Alarm slot and every Timer slot is unchanged.  Hence checks at readings that
differ from the alarm's time, however many, leave the alarm as it was. -/
theorem alarm_check_exact_match (now : Int) (t : Tm) (st : Store) :
    (∀ i, (st.alarms i).active ≠ 0 → (st.alarms i).done = 0 →
      (st.alarms i).hours = t.tm_hour → (st.alarms i).minutes = t.tm_min →
      (st.alarms i).seconds = t.tm_sec →
      (alarm_check now t st).alarms i = { st.alarms i with done := 1, done_time := now }) ∧
    (∀ i, ¬ ((st.alarms i).active ≠ 0 ∧ (st.alarms i).done = 0 ∧
        (st.alarms i).hours = t.tm_hour ∧ (st.alarms i).minutes = t.tm_min ∧
        (st.alarms i).seconds = t.tm_sec) →
      (alarm_check now t st).alarms i = st.alarms i) ∧
    (alarm_check now t st).timers = st.timers ∧
    (∀ i (readings : List (Int × Tm)),
      (∀ r ∈ readings, ¬ ((st.alarms i).hours = r.2.tm_hour ∧
        (st.alarms i).minutes = r.2.tm_min ∧ (st.alarms i).seconds = r.2.tm_sec)) →
      (alarm_checks readings st).alarms i = st.alarms i) := by
  refine ⟨fun i ha hd hh hm hs => ?_, fun i h => ?_, rfl,
    fun i readings h => alarm_checks_no_match i readings st h⟩
  · rw [alarm_check_alarms]
    unfold check_slot
    rw [if_pos ⟨ha, hd⟩, if_pos ⟨hh, hm, hs⟩]
  · rw [alarm_check_alarms]
    unfold check_slot
    split_ifs with h1 h2
    · exact absurd ⟨h1.1, h1.2, h2⟩ h
    · rfl
    · rfl

/-- Witness for C8: the alarm `08:30:00` fires in the pass that reads
`08:30:00`, and passes reading `08:30:01` and `08:30:02` leave it pending. -/
theorem alarm_check_exact_match_witness :
    (alarm_check 1000 ⟨8, 30, 0⟩ store_0830).alarms 0 = ⟨8, 30, 0, 1, 1, 1000⟩ ∧
    (alarm_check 1001 ⟨8, 30, 1⟩ store_0830).alarms 0 = store_0830.alarms 0 ∧
    (alarm_checks [(1001, ⟨8, 30, 1⟩), (1002, ⟨8, 30, 2⟩)] store_0830).alarms 0
      = store_0830.alarms 0 :=
  ⟨(alarm_check_exact_match 1000 ⟨8, 30, 0⟩ store_0830).1 0
      (by decide) (by decide) (by decide) (by decide) (by decide),
   (alarm_check_exact_match 1001 ⟨8, 30, 1⟩ store_0830).2.1 0 (by decide),
   (alarm_check_exact_match 1001 ⟨8, 30, 1⟩ store_0830).2.2.2 0
      [(1001, ⟨8, 30, 1⟩), (1002, ⟨8, 30, 2⟩)] (by decide)⟩

/-! ## Status of a slot -/

theorem countdown_slot_status (t : Int) (e : Timer) :
    (countdown_slot t e).active = e.active ∧
    ((countdown_slot t e).done = e.done ∨
      (e.active ≠ 0 ∧ e.done = 0 ∧ (countdown_slot t e).done = 1)) := by
  unfold countdown_slot
  split_ifs with h1 h2 h3 h4 h5
  · exact ⟨rfl, Or.inr ⟨h1.1, h1.2, rfl⟩⟩
  · exact ⟨rfl, Or.inl rfl⟩
  · exact ⟨rfl, Or.inl rfl⟩
  · exact ⟨rfl, Or.inl rfl⟩
  · exact ⟨rfl, Or.inl rfl⟩
  · exact ⟨rfl, Or.inl rfl⟩

theorem check_slot_status (now : Int) (t : Tm) (a : Alarm) :
    (check_slot now t a).active = a.active ∧
    ((check_slot now t a).done = a.done ∨
      (a.active ≠ 0 ∧ a.done = 0 ∧ (check_slot now t a).done = 1)) := by
  unfold check_slot
  split_ifs with h1 h2
  · exact ⟨rfl, Or.inr ⟨h1.1, h1.2, rfl⟩⟩
  · exact ⟨rfl, Or.inl rfl⟩
  · exact ⟨rfl, Or.inl rfl⟩

theorem expire_timer_status (now : Int) (e : Timer) :
    expire_timer now e = e ∨
    (e.active ≠ 0 ∧ e.done ≠ 0 ∧ now - e.done_time > 7 ∧ (expire_timer now e).active = 0) := by
  unfold expire_timer difftime
  split_ifs with h
  · exact Or.inr ⟨h.1, h.2.1, h.2.2, rfl⟩
  · exact Or.inl rfl

theorem expire_alarm_status (now : Int) (a : Alarm) :
    expire_alarm now a = a ∨
    (a.active ≠ 0 ∧ a.done ≠ 0 ∧ now - a.done_time > 7 ∧ (expire_alarm now a).active = 0) := by
  unfold expire_alarm difftime
  split_ifs with h
  · exact Or.inr ⟨h.1, h.2.1, h.2.2, rfl⟩
  · exact Or.inl rfl

theorem set_timer_slot (input : List Char) (junk : Int) (st : Store) (i : Fin MAX_TIMERS) :
    (set_timer input junk st).timers i = st.timers i ∨
    ((st.timers i).active = 0 ∧ ((set_timer input junk st).timers i).active = 1 ∧
      ((set_timer input junk st).timers i).done = 0) := by
  rcases install_timer_slot (new_timer input junk) slots st.timers i with h | ⟨h0, h⟩
  · exact Or.inl h
  · refine Or.inr ⟨h0, ?_, ?_⟩
    · simp only [set_timer, h]; exact (parse_duration_flags _ _ _).1
    · simp only [set_timer, h]; exact (parse_duration_flags _ _ _).2.1

theorem set_alarm_slot (input : List Char) (pad : Nat → Int) (junk : Int) (st : Store)
    (i : Fin MAX_ALARMS) :
    (set_alarm input pad junk st).alarms i = st.alarms i ∨
    ((st.alarms i).active = 0 ∧ ((set_alarm input pad junk st).alarms i).active = 1 ∧
      ((set_alarm input pad junk st).alarms i).done = 0) := by
  rcases install_alarm_slot (new_alarm input pad junk) slots st.alarms i with h | ⟨h0, h⟩
  · exact Or.inl h
  · refine Or.inr ⟨h0, ?_, ?_⟩
    · simp only [set_alarm, h]; rfl
    · simp only [set_alarm, h]; rfl

/-- A step leaves a Timer slot done and inactive only if the slot was so
before, or the step is an `update_time` pass that freed it. -/
theorem timer_done_inactive_step (st : Store) (op : Op) (i : Fin MAX_TIMERS)
    (hd : ((op.apply st).timers i).done ≠ 0) (ha : ((op.apply st).timers i).active = 0) :
    ((st.timers i).done ≠ 0 ∧ (st.timers i).active = 0) ∨
    (∃ now t jt ja, op = Op.update_time now t jt ja ∧ (st.timers i).active ≠ 0 ∧
      (st.timers i).done ≠ 0 ∧ now - (st.timers i).done_time > 7) := by
  cases op with
  | timer_countdown clock =>
    simp only [Op.apply, timer_countdown_timers] at hd ha
    obtain ⟨h1, h2⟩ := countdown_slot_status (clock i) (st.timers i)
    rw [h1] at ha
    rcases h2 with h2 | ⟨h2, _⟩
    · rw [h2] at hd; exact Or.inl ⟨hd, ha⟩
    · exact absurd ha h2
  | alarm_check now t => exact Or.inl ⟨hd, ha⟩
  | update_time now t jt ja =>
    simp only [Op.apply, update_time_timers] at hd ha
    rcases expire_timer_status now (st.timers i) with h | ⟨h1, h2, h3, _⟩
    · rw [h] at hd ha; exact Or.inl ⟨hd, ha⟩
    · exact Or.inr ⟨now, t, jt, ja, rfl, h1, h2, h3⟩
  | set_timer input junk =>
    simp only [Op.apply] at hd ha
    rcases set_timer_slot input junk st i with h | ⟨_, _, h⟩
    · rw [h] at hd ha; exact Or.inl ⟨hd, ha⟩
    · exact absurd h hd
  | set_alarm input pad junk => exact Or.inl ⟨hd, ha⟩

theorem alarm_done_inactive_step (st : Store) (op : Op) (i : Fin MAX_ALARMS)
    (hd : ((op.apply st).alarms i).done ≠ 0) (ha : ((op.apply st).alarms i).active = 0) :
    ((st.alarms i).done ≠ 0 ∧ (st.alarms i).active = 0) ∨
    (∃ now t jt ja, op = Op.update_time now t jt ja ∧ (st.alarms i).active ≠ 0 ∧
      (st.alarms i).done ≠ 0 ∧ now - (st.alarms i).done_time > 7) := by
  cases op with
  | timer_countdown clock => exact Or.inl ⟨hd, ha⟩
  | alarm_check now t =>
    simp only [Op.apply, alarm_check_alarms] at hd ha
    obtain ⟨h1, h2⟩ := check_slot_status now t (st.alarms i)
    rw [h1] at ha
    rcases h2 with h2 | ⟨h2, _⟩
    · rw [h2] at hd; exact Or.inl ⟨hd, ha⟩
    · exact absurd ha h2
  | update_time now t jt ja =>
    simp only [Op.apply, update_time_alarms] at hd ha
    rcases expire_alarm_status now (st.alarms i) with h | ⟨h1, h2, h3, _⟩
    · rw [h] at hd ha; exact Or.inl ⟨hd, ha⟩
    · exact Or.inr ⟨now, t, jt, ja, rfl, h1, h2, h3⟩
  | set_timer input junk => exact Or.inl ⟨hd, ha⟩
  | set_alarm input pad junk =>
    simp only [Op.apply] at hd ha
    rcases set_alarm_slot input pad junk st i with h | ⟨_, _, h⟩
    · rw [h] at hd ha; exact Or.inl ⟨hd, ha⟩
    · exact absurd h hd

theorem run_snoc (ops : List Op) (op : Op) (st : Store) :
    run (ops ++ [op]) st = op.apply (run ops st) := by
  simp only [run, List.foldl_append, List.foldl_cons, List.foldl_nil]

/-- C9 fails as stated: after creating the timer `0s`, one countdown pass and
one display pass eight seconds later, timer slot 0 has `done = 1` and
`active = 0`, so "done implies active" does not hold in every reachable
state. -/
theorem done_implies_active_fails :
    ¬ (∀ ops : List Op,
        (∀ i, ((run ops init).timers i).done ≠ 0 → ((run ops init).timers i).active ≠ 0) ∧
        (∀ i, ((run ops init).alarms i).done ≠ 0 → ((run ops init).alarms i).active ≠ 0)) := by
  intro h
  exact (h freed_timer_ops).1 0 (by decide) (by decide)

/-- C9 as amended: in every state reachable from the initial store, a Timer or
Alarm slot with `done` set is active unless a display pass has freed it: if
the slot has `done ≠ 0` and `active = 0`, then the steps taken contain an
`update_time` pass before which the slot was active and done with more than
7 seconds elapsed since `done_time` (the pass that cleared `active` and left
`done` set). -/
theorem done_inactive_only_when_freed (ops : List Op) :
    (∀ i, ((run ops init).timers i).done ≠ 0 → ((run ops init).timers i).active = 0 →
      ∃ pre now t jt ja post, ops = pre ++ Op.update_time now t jt ja :: post ∧
        ((run pre init).timers i).active ≠ 0 ∧ ((run pre init).timers i).done ≠ 0 ∧
        now - ((run pre init).timers i).done_time > 7) ∧
    (∀ i, ((run ops init).alarms i).done ≠ 0 → ((run ops init).alarms i).active = 0 →
      ∃ pre now t jt ja post, ops = pre ++ Op.update_time now t jt ja :: post ∧
        ((run pre init).alarms i).active ≠ 0 ∧ ((run pre init).alarms i).done ≠ 0 ∧
        now - ((run pre init).alarms i).done_time > 7) := by
  induction ops using List.reverseRecOn with
  | nil =>
    exact ⟨fun i hd _ => absurd rfl hd, fun i hd _ => absurd rfl hd⟩
  | append_singleton ops op ih =>
    refine ⟨fun i hd ha => ?_, fun i hd ha => ?_⟩
    · rw [run_snoc] at hd ha
      rcases timer_done_inactive_step _ op i hd ha with ⟨h1, h2⟩ | ⟨now, t, jt, ja, e, h1, h2, h3⟩
      · obtain ⟨pre, now, t, jt, ja, post, e, r⟩ := ih.1 i h1 h2
        exact ⟨pre, now, t, jt, ja, post ++ [op], by rw [e]; simp, r⟩
      · exact ⟨ops, now, t, jt, ja, [], by rw [e], h1, h2, h3⟩
    · rw [run_snoc] at hd ha
      rcases alarm_done_inactive_step _ op i hd ha with ⟨h1, h2⟩ | ⟨now, t, jt, ja, e, h1, h2, h3⟩
      · obtain ⟨pre, now, t, jt, ja, post, e, r⟩ := ih.2 i h1 h2
        exact ⟨pre, now, t, jt, ja, post ++ [op], by rw [e]; simp, r⟩
      · exact ⟨ops, now, t, jt, ja, [], by rw [e], h1, h2, h3⟩

/-- Witness for the amended C9: in the state reached by `freed_timer_ops`
timer slot 0 is done and inactive, and the steps contain the pass that freed
it. -/
theorem done_inactive_only_when_freed_witness :
    ∃ pre now t jt ja post, freed_timer_ops = pre ++ Op.update_time now t jt ja :: post ∧
      ((run pre init).timers 0).active ≠ 0 ∧ ((run pre init).timers 0).done ≠ 0 ∧
      now - ((run pre init).timers 0).done_time > 7 :=
  (done_inactive_only_when_freed freed_timer_ops).1 0 (by decide) (by decide)

/-- C10: in every store and for every single step, each slot keeps its
`(active, done)` flags or makes one of three moves: free to active and not
done (a Timer slot only by `set_timer`, an Alarm slot only by `set_alarm`),
active and not done to active and done (only by `timer_countdown`, resp.
`alarm_check`), active and done to free (only by an `update_time` pass).  In
particular an active, not-done entry is never freed, and it is left exactly
as it is by every step other than the `timer_countdown` pass (for a Timer)
or the `alarm_check` pass (for an Alarm), so no step overwrites it. -/
theorem slot_transitions (st : Store) (op : Op) :
    (∀ i, Transition op.is_set_timer op.is_timer_countdown op.is_update_time
      (st.timers i).active (st.timers i).done
      ((op.apply st).timers i).active ((op.apply st).timers i).done) ∧
    (∀ i, Transition op.is_set_alarm op.is_alarm_check op.is_update_time
      (st.alarms i).active (st.alarms i).done
      ((op.apply st).alarms i).active ((op.apply st).alarms i).done) ∧
    (∀ i, (st.timers i).active ≠ 0 → (st.timers i).done = 0 →
      ((op.apply st).timers i).active = (st.timers i).active ∧
      (op.is_timer_countdown = false → (op.apply st).timers i = st.timers i)) ∧
    (∀ i, (st.alarms i).active ≠ 0 → (st.alarms i).done = 0 →
      ((op.apply st).alarms i).active = (st.alarms i).active ∧
      (op.is_alarm_check = false → (op.apply st).alarms i = st.alarms i)) := by
  have same_t : ∀ (x y : Timer) (c d e : Bool), x = y →
      Transition c d e y.active y.done x.active x.done :=
    fun x y c d e h => Or.inl ⟨by rw [h], by rw [h]⟩
  have same_a : ∀ (x y : Alarm) (c d e : Bool), x = y →
      Transition c d e y.active y.done x.active x.done :=
    fun x y c d e h => Or.inl ⟨by rw [h], by rw [h]⟩
  cases op with
  | timer_countdown clock =>
    refine ⟨fun i => ?_, fun i => same_a _ _ _ _ _ rfl, fun i _ _ => ⟨?_, fun h => ?_⟩,
      fun i _ _ => ⟨rfl, fun _ => rfl⟩⟩
    · simp only [Op.apply, timer_countdown_timers]
      obtain ⟨h1, h2⟩ := countdown_slot_status (clock i) (st.timers i)
      rcases h2 with h2 | ⟨h2, h3, h4⟩
      · exact Or.inl ⟨h1, h2⟩
      · exact Or.inr (Or.inr (Or.inl ⟨rfl, h2, h3, h1, h4⟩))
    · simp only [Op.apply, timer_countdown_timers]
      exact (countdown_slot_status (clock i) (st.timers i)).1
    · exact absurd h (by simp [Op.is_timer_countdown])
  | alarm_check now t =>
    refine ⟨fun i => same_t _ _ _ _ _ rfl, fun i => ?_, fun i _ _ => ⟨rfl, fun _ => rfl⟩,
      fun i _ _ => ⟨?_, fun h => ?_⟩⟩
    · simp only [Op.apply, alarm_check_alarms]
      obtain ⟨h1, h2⟩ := check_slot_status now t (st.alarms i)
      rcases h2 with h2 | ⟨h2, h3, h4⟩
      · exact Or.inl ⟨h1, h2⟩
      · exact Or.inr (Or.inr (Or.inl ⟨rfl, h2, h3, h1, h4⟩))
    · simp only [Op.apply, alarm_check_alarms]
      exact (check_slot_status now t (st.alarms i)).1
    · exact absurd h (by simp [Op.is_alarm_check])
  | update_time now t jt ja =>
    have ht : ∀ i, (st.timers i).done = 0 →
        (update_time now t jt ja st).timers i = st.timers i := by
      intro i hd
      rw [update_time_timers]
      rcases expire_timer_status now (st.timers i) with h | ⟨_, h, _⟩
      · exact h
      · exact absurd hd h
    have hal : ∀ i, (st.alarms i).done = 0 →
        (update_time now t jt ja st).alarms i = st.alarms i := by
      intro i hd
      rw [update_time_alarms]
      rcases expire_alarm_status now (st.alarms i) with h | ⟨_, h, _⟩
      · exact h
      · exact absurd hd h
    refine ⟨fun i => ?_, fun i => ?_, fun i _ hd => ?_, fun i _ hd => ?_⟩
    · simp only [Op.apply, update_time_timers]
      rcases expire_timer_status now (st.timers i) with h | ⟨h1, h2, _, h4⟩
      · exact same_t _ _ _ _ _ h
      · exact Or.inr (Or.inr (Or.inr ⟨rfl, h1, h2, h4, (expire_timer_fields now _).2.2.2.1⟩))
    · simp only [Op.apply, update_time_alarms]
      rcases expire_alarm_status now (st.alarms i) with h | ⟨h1, h2, _, h4⟩
      · exact same_a _ _ _ _ _ h
      · exact Or.inr (Or.inr (Or.inr ⟨rfl, h1, h2, h4, (expire_alarm_fields now _).2.2.2.1⟩))
    · have e : ((Op.update_time now t jt ja).apply st).timers i = st.timers i := ht i hd
      exact ⟨by rw [e], fun _ => e⟩
    · have e : ((Op.update_time now t jt ja).apply st).alarms i = st.alarms i := hal i hd
      exact ⟨by rw [e], fun _ => e⟩
  | set_timer input junk =>
    refine ⟨fun i => ?_, fun i => same_a _ _ _ _ _ rfl, fun i ha _ => ?_,
      fun i _ _ => ⟨rfl, fun _ => rfl⟩⟩
    · simp only [Op.apply]
      rcases set_timer_slot input junk st i with h | ⟨h1, h2, h3⟩
      · exact same_t _ _ _ _ _ h
      · exact Or.inr (Or.inl ⟨rfl, h1, h2, h3⟩)
    · have e : ((Op.set_timer input junk).apply st).timers i = st.timers i :=
        set_timer_of_active input junk st i ha
      exact ⟨by rw [e], fun _ => e⟩
  | set_alarm input pad junk =>
    refine ⟨fun i => same_t _ _ _ _ _ rfl, fun i => ?_, fun i _ _ => ⟨rfl, fun _ => rfl⟩,
      fun i ha _ => ?_⟩
    · simp only [Op.apply]
      rcases set_alarm_slot input pad junk st i with h | ⟨h1, h2, h3⟩
      · exact same_a _ _ _ _ _ h
      · exact Or.inr (Or.inl ⟨rfl, h1, h2, h3⟩)
    · have e : ((Op.set_alarm input pad junk).apply st).alarms i = st.alarms i :=
        set_alarm_of_active input pad junk st i ha
      exact ⟨by rw [e], fun _ => e⟩

/-- Witness for C10: the running timer of `store_1m5s` is left exactly as it
is by a `set_timer` call and by an `update_time` pass, and stays active in a
`timer_countdown` pass. -/
theorem slot_transitions_witness :
    ((Op.set_timer ['3', '0', 's'] 0).apply store_1m5s).timers 0 = store_1m5s.timers 0 ∧
    ((Op.update_time 500 ⟨8, 38, 20⟩ (fun _ => 0) (fun _ => 0)).apply store_1m5s).timers 0
      = store_1m5s.timers 0 ∧
    (((Op.timer_countdown (fun _ => 500)).apply store_1m5s).timers 0).active
      = (store_1m5s.timers 0).active :=
  ⟨((slot_transitions store_1m5s (Op.set_timer ['3', '0', 's'] 0)).2.2.1 0
      (by decide) (by decide)).2 rfl,
   ((slot_transitions store_1m5s
      (Op.update_time 500 ⟨8, 38, 20⟩ (fun _ => 0) (fun _ => 0))).2.2.1 0
      (by decide) (by decide)).2 rfl,
   ((slot_transitions store_1m5s (Op.timer_countdown (fun _ => 500))).2.2.1 0
      (by decide) (by decide)).1⟩

/-! ## The frame of a display pass -/

theorem timer_line_expire (now : Int) (e : Timer) :
    timer_line now (expire_timer now e) = timer_line now e := by
  unfold expire_timer
  split_ifs with h
  · unfold timer_line
    simp only [ne_eq, not_true_eq_false, if_false]
    rw [if_pos h.1, if_pos h.2.1, if_pos h.2.2]
  · rfl

theorem alarm_line_expire (now : Int) (a : Alarm) :
    alarm_line now (expire_alarm now a) = alarm_line now a := by
  unfold expire_alarm
  split_ifs with h
  · unfold alarm_line
    simp only [ne_eq, not_true_eq_false, if_false]
    rw [if_pos h.1, if_pos h.2.1, if_pos h.2.2]
  · rfl

/-- The timer loop body appends the line of its entry, if there is one, on the
current row and moves one row down. -/
theorem render_timer_frame (now playing : Int) (i : Fin MAX_TIMERS) (p : Pass) :
    (render_timer now playing i p).frame =
      p.frame ++ List.enumFrom p.line (timer_line now (p.timers i)).toList ∧
    (render_timer now playing i p).line = p.line + (timer_line now (p.timers i)).toList.length := by
  unfold render_timer timer_line
  by_cases h1 : (p.timers i).active ≠ 0 <;> by_cases h2 : (p.timers i).done ≠ 0 <;>
    by_cases h3 : difftime now (p.timers i).done_time > 7 <;>
    simp [h1, h2, h3, List.enumFrom]

theorem render_alarm_frame (now playing : Int) (i : Fin MAX_ALARMS) (p : Pass) :
    (render_alarm now playing i p).frame =
      p.frame ++ List.enumFrom p.line (alarm_line now (p.alarms i)).toList ∧
    (render_alarm now playing i p).line = p.line + (alarm_line now (p.alarms i)).toList.length := by
  unfold render_alarm alarm_line
  by_cases h1 : (p.alarms i).active ≠ 0 <;> by_cases h2 : (p.alarms i).done ≠ 0 <;>
    by_cases h3 : difftime now (p.alarms i).done_time > 7 <;>
    simp [h1, h2, h3, List.enumFrom]

theorem timer_line_after_render (now playing : Int) (i j : Fin MAX_TIMERS) (p : Pass) :
    timer_line now ((render_timer now playing i p).timers j) = timer_line now (p.timers j) := by
  rw [render_timer_timers]
  by_cases hji : j = i
  · subst hji; rw [Function.update_same, timer_line_expire]
  · rw [Function.update_noteq hji]

theorem alarm_line_after_render (now playing : Int) (i j : Fin MAX_ALARMS) (p : Pass) :
    alarm_line now ((render_alarm now playing i p).alarms j) = alarm_line now (p.alarms j) := by
  rw [render_alarm_alarms]
  by_cases hji : j = i
  · subst hji; rw [Function.update_same, alarm_line_expire]
  · rw [Function.update_noteq hji]

theorem filterMap_cons_toList {α β : Type} (f : α → Option β) (a : α) (l : List α) :
    List.filterMap f (a :: l) = (f a).toList ++ List.filterMap f l := by
  cases h : f a <;> simp [List.filterMap_cons, h]

/-- The timer loop over any list of slots appends the lines of those slots,
in list order, on consecutive rows. -/
theorem foldl_render_timer_frame (now : Int) (jt : Fin MAX_TIMERS → Int)
    (l : List (Fin MAX_TIMERS)) : ∀ p : Pass,
    (l.foldl (fun p i => render_timer now (jt i) i p) p).frame =
      p.frame ++ List.enumFrom p.line (l.filterMap (fun i => timer_line now (p.timers i))) ∧
    (l.foldl (fun p i => render_timer now (jt i) i p) p).line =
      p.line + (l.filterMap (fun i => timer_line now (p.timers i))).length := by
  induction l with
  | nil => intro p; simp
  | cons i rest ih =>
    intro p
    obtain ⟨h1, h2⟩ := ih (render_timer now (jt i) i p)
    obtain ⟨f1, f2⟩ := render_timer_frame now (jt i) i p
    have hc : rest.filterMap (fun j => timer_line now ((render_timer now (jt i) i p).timers j))
        = rest.filterMap (fun j => timer_line now (p.timers j)) :=
      List.filterMap_congr (fun j _ => timer_line_after_render now (jt i) i j p)
    rw [hc] at h1 h2
    simp only [List.foldl_cons]
    rw [h1, h2, f1, f2, filterMap_cons_toList, List.enumFrom_append, List.length_append,
      List.append_assoc, Nat.add_assoc]
    exact ⟨rfl, rfl⟩

theorem foldl_render_alarm_frame (now : Int) (ja : Fin MAX_ALARMS → Int)
    (l : List (Fin MAX_ALARMS)) : ∀ p : Pass,
    (l.foldl (fun p i => render_alarm now (ja i) i p) p).frame =
      p.frame ++ List.enumFrom p.line (l.filterMap (fun i => alarm_line now (p.alarms i))) ∧
    (l.foldl (fun p i => render_alarm now (ja i) i p) p).line =
      p.line + (l.filterMap (fun i => alarm_line now (p.alarms i))).length := by
  induction l with
  | nil => intro p; simp
  | cons i rest ih =>
    intro p
    obtain ⟨h1, h2⟩ := ih (render_alarm now (ja i) i p)
    obtain ⟨f1, f2⟩ := render_alarm_frame now (ja i) i p
    have hc : rest.filterMap (fun j => alarm_line now ((render_alarm now (ja i) i p).alarms j))
        = rest.filterMap (fun j => alarm_line now (p.alarms j)) :=
      List.filterMap_congr (fun j _ => alarm_line_after_render now (ja i) i j p)
    rw [hc] at h1 h2
    simp only [List.foldl_cons]
    rw [h1, h2, f1, f2, filterMap_cons_toList, List.enumFrom_append, List.length_append,
      List.append_assoc, Nat.add_assoc]
    exact ⟨rfl, rfl⟩

theorem timer_line_isSome (now : Int) (e : Timer) :
    (timer_line now e).isSome = true ↔ (expire_timer now e).active ≠ 0 := by
  unfold timer_line expire_timer
  by_cases h1 : e.active ≠ 0 <;> by_cases h2 : e.done ≠ 0 <;>
    by_cases h3 : difftime now e.done_time > 7 <;> simp [h1, h2, h3]

theorem alarm_line_isSome (now : Int) (a : Alarm) :
    (alarm_line now a).isSome = true ↔ (expire_alarm now a).active ≠ 0 := by
  unfold alarm_line expire_alarm
  by_cases h1 : a.active ≠ 0 <;> by_cases h2 : a.done ≠ 0 <;>
    by_cases h3 : difftime now a.done_time > 7 <;> simp [h1, h2, h3]

/-- C11: the frame composed by one non-skipped `update_time` pass has the
current time on row 0 and then, on rows 1, 2, ... without a gap, the lines of
the Timer slots in ascending slot index followed by the lines of the Alarm
slots in ascending slot index.  A slot has a line exactly when its entry is
still active after the pass (active and not freed by it); the line is the
DONE text for a done entry and the time text otherwise, whatever the
neighbouring slots hold. -/
theorem update_time_frame (now : Int) (t : Tm) (jt : Fin MAX_TIMERS → Int)
    (ja : Fin MAX_ALARMS → Int) (st : Store) :
    (update_time_pass now t jt ja st).frame =
      (0, Text.current_time t.tm_hour t.tm_min t.tm_sec) ::
        List.enumFrom 1 (slots.filterMap (fun i => timer_line now (st.timers i)) ++
          slots.filterMap (fun i => alarm_line now (st.alarms i))) ∧
    (∀ i, (timer_line now (st.timers i)).isSome = true ↔
      ((update_time now t jt ja st).timers i).active ≠ 0) ∧
    (∀ i, (alarm_line now (st.alarms i)).isSome = true ↔
      ((update_time now t jt ja st).alarms i).active ≠ 0) ∧
    (∀ i, ((update_time now t jt ja st).timers i).active ≠ 0 →
      timer_line now (st.timers i) = some (if (st.timers i).done ≠ 0 then Text.timer_done
        else Text.timer (st.timers i).hours (st.timers i).minutes (st.timers i).seconds)) ∧
    (∀ i, ((update_time now t jt ja st).alarms i).active ≠ 0 →
      alarm_line now (st.alarms i) = some (if (st.alarms i).done ≠ 0 then Text.alarm_done
        else Text.alarm_set (st.alarms i).hours (st.alarms i).minutes (st.alarms i).seconds)) := by
  refine ⟨?_, fun i => ?_, fun i => ?_, fun i h => ?_, fun i h => ?_⟩
  · unfold update_time_pass
    simp only []
    obtain ⟨a1, a2⟩ := foldl_render_timer_frame now jt slots
      { timers := st.timers, alarms := st.alarms, line := 1,
        frame := [(0, Text.current_time t.tm_hour t.tm_min t.tm_sec)], spawned := 0 }
    obtain ⟨b1, _⟩ := foldl_render_alarm_frame now ja slots
      (slots.foldl (fun p i => render_timer now (jt i) i p)
        { timers := st.timers, alarms := st.alarms, line := 1,
          frame := [(0, Text.current_time t.tm_hour t.tm_min t.tm_sec)], spawned := 0 })
    rw [b1, a1, a2, foldl_render_timer_alarms, List.enumFrom_append]
    simp only [List.singleton_append, List.cons_append, List.nil_append]
  · rw [update_time_timers]; exact timer_line_isSome now _
  · rw [update_time_alarms]; exact alarm_line_isSome now _
  · rw [update_time_timers] at h
    revert h
    unfold timer_line expire_timer
    by_cases h1 : (st.timers i).active ≠ 0 <;> by_cases h2 : (st.timers i).done ≠ 0 <;>
      by_cases h3 : difftime now (st.timers i).done_time > 7 <;> simp [h1, h2, h3]
  · rw [update_time_alarms] at h
    revert h
    unfold alarm_line expire_alarm
    by_cases h1 : (st.alarms i).active ≠ 0 <;> by_cases h2 : (st.alarms i).done ≠ 0 <;>
      by_cases h3 : difftime now (st.alarms i).done_time > 7 <;> simp [h1, h2, h3]

/-- Witness for C11: in `store_mixed` at time 105 the frame is the time, the
pending timer of slot 0, the done timer of slot 2, the done alarm of slot 1
and the pending alarm of slot 3, on rows 0 to 4. -/
theorem update_time_frame_witness :
    (update_time_pass 105 ⟨8, 30, 5⟩ (fun _ => 0) (fun _ => 0) store_mixed).frame =
      [(0, Text.current_time 8 30 5), (1, Text.timer 0 1 5), (2, Text.timer_done),
       (3, Text.alarm_done), (4, Text.alarm_set 9 15 0)] ∧
    timer_line 105 (store_mixed.timers 2) = some Text.timer_done :=
  ⟨(update_time_frame 105 ⟨8, 30, 5⟩ (fun _ => 0) (fun _ => 0) store_mixed).1,
   (update_time_frame 105 ⟨8, 30, 5⟩ (fun _ => 0) (fun _ => 0) store_mixed).2.2.2.1 2
     (by decide)⟩

/-! ## The editing flag -/

/-- C12: one iteration of the `update_time` loop pushes a frame if and only if
the flag `setting_time_or_alarm` reads zero.  With the flag set the iteration
pushes no frame, creates no jingle thread and leaves the store as it is; with
the flag clear it pushes the frame of the pass.  So no frame is pushed while
`set_timer` or `set_alarm` waits for its text, and the first iteration after
either has returned pushes a frame. -/
theorem update_time_iteration_flag (now : Int) (t : Tm) (jt : Fin MAX_TIMERS → Int)
    (ja : Fin MAX_ALARMS → Int) :
    (∀ (flag : Int) (st : Store),
      (update_time_iteration flag now t jt ja st).pushed.isSome = true ↔ flag = 0) ∧
    (∀ (flag : Int) (st : Store), flag ≠ 0 →
      (update_time_iteration flag now t jt ja st).pushed = none ∧
      (update_time_iteration flag now t jt ja st).spawned = 0 ∧
      (update_time_iteration flag now t jt ja st).store = st) ∧
    (∀ (flag : Int) (st : Store), flag = 0 →
      (update_time_iteration flag now t jt ja st).pushed =
        some (update_time_pass now t jt ja st).frame ∧
      (update_time_iteration flag now t jt ja st).store = update_time now t jt ja st) ∧
    (∀ g : Program,
      (update_time_turn (begin_setting g) now t jt ja).pushed = none ∧
      (update_time_turn (begin_setting g) now t jt ja).spawned = 0 ∧
      (update_time_turn (begin_setting g) now t jt ja).store = g.store) ∧
    (∀ (g : Program) (input : List Char) (pad : Nat → Int) (junk : Int),
      (update_time_turn (finish_set_timer input junk (begin_setting g)) now t jt ja).pushed.isSome
        = true ∧
      (update_time_turn (finish_set_alarm input pad junk (begin_setting g)) now t jt ja).pushed.isSome
        = true) := by
  refine ⟨fun flag st => ?_, fun flag st h => ?_, fun flag st h => ?_, fun g => ?_,
    fun g input pad junk => ?_⟩
  · unfold update_time_iteration
    by_cases h : flag = 0
    · simp [h]
    · simp [h]
  · unfold update_time_iteration
    rw [if_neg h]
    exact ⟨rfl, rfl, rfl⟩
  · unfold update_time_iteration
    rw [if_pos h]
    exact ⟨rfl, rfl⟩
  · exact ⟨rfl, rfl, rfl⟩
  · exact ⟨rfl, rfl⟩

/-- Witness for C12: with the flag at 1 nothing is pushed and the done timer of
`store_done` is not freed even at time 500; with the flag at 0 a frame is
pushed. -/
theorem update_time_iteration_flag_witness :
    (update_time_iteration 1 500 ⟨8, 38, 20⟩ (fun _ => 0) (fun _ => 0) store_done).pushed = none ∧
    (update_time_iteration 1 500 ⟨8, 38, 20⟩ (fun _ => 0) (fun _ => 0) store_done).spawned = 0 ∧
    (update_time_iteration 1 500 ⟨8, 38, 20⟩ (fun _ => 0) (fun _ => 0) store_done).store
      = store_done ∧
    (update_time_iteration 0 500 ⟨8, 38, 20⟩ (fun _ => 0) (fun _ => 0) store_done).pushed
      = some (update_time_pass 500 ⟨8, 38, 20⟩ (fun _ => 0) (fun _ => 0) store_done).frame :=
  ⟨((update_time_iteration_flag 500 ⟨8, 38, 20⟩ (fun _ => 0) (fun _ => 0)).2.1 1 store_done
      (by decide)).1,
   ((update_time_iteration_flag 500 ⟨8, 38, 20⟩ (fun _ => 0) (fun _ => 0)).2.1 1 store_done
      (by decide)).2.1,
   ((update_time_iteration_flag 500 ⟨8, 38, 20⟩ (fun _ => 0) (fun _ => 0)).2.1 1 store_done
      (by decide)).2.2,
   ((update_time_iteration_flag 500 ⟨8, 38, 20⟩ (fun _ => 0) (fun _ => 0)).2.2.1 0 store_done
      rfl).1⟩

/-! ## The scenario of the timer `1m5s` -/

theorem new_timer_1m5s (junk : Int) :
    new_timer ['1', 'm', '5', 's'] junk = ⟨0, 1, 5, 1, 0, junk⟩ := rfl

/-- C13 fails as stated: the timer created from `1m5s` in slot 0 of the initial
store reads `00:00:00` after 65 countdown passes but is not yet done. -/
theorem done_after_65_passes_fails :
    store_set_1m5s.timers 0 = new_timer ['1', 'm', '5', 's'] 0 ∧
    ¬ (((countdown_passes (fun _ _ => 0) 65 store_set_1m5s).timers 0).done ≠ 0) := by
  refine ⟨by decide, fun h => h ?_⟩
  exact (countdown_passes_running store_set_1m5s (fun _ _ => 0) 0
    (by decide) (by decide) (by decide) (by decide) (by decide) 65 (by decide)).2.1

/-- C13 as amended: for the Timer created from `1m5s` (hours 0, minutes 1,
seconds 5, active, not done) in any slot of any store, after exactly 65
passes of `timer_countdown` the entry reads `00:00:00` and is still not done,
and after exactly 66 passes it is done, with `done_time` the clock reading of
the 66th pass. -/
theorem timer_1m5s_done_at_pass_66 (st : Store) (clocks : Nat → Fin MAX_TIMERS → Int)
    (i : Fin MAX_TIMERS) (junk : Int) (h : st.timers i = new_timer ['1', 'm', '5', 's'] junk) :
    ((countdown_passes clocks 65 st).timers i).hours = 0 ∧
    ((countdown_passes clocks 65 st).timers i).minutes = 0 ∧
    ((countdown_passes clocks 65 st).timers i).seconds = 0 ∧
    ((countdown_passes clocks 65 st).timers i).active = 1 ∧
    ((countdown_passes clocks 65 st).timers i).done = 0 ∧
    ((countdown_passes clocks 66 st).timers i).active = 1 ∧
    ((countdown_passes clocks 66 st).timers i).done = 1 ∧
    ((countdown_passes clocks 66 st).timers i).done_time = clocks 65 i := by
  rw [new_timer_1m5s] at h
  have ha : (st.timers i).active ≠ 0 := by rw [h]; exact one_ne_zero
  have hd : (st.timers i).done = 0 := by rw [h]
  have hh : 0 ≤ (st.timers i).hours := by rw [h]
  have hm : 0 ≤ (st.timers i).minutes := by rw [h]; exact Int.le_of_lt Int.one_pos
  have hs : 0 ≤ (st.timers i).seconds := by rw [h]; show (0 : Int) ≤ 5; omega
  have ht : (st.timers i).total = 65 := by rw [h]; rfl
  obtain ⟨a1, a2, a3, a4, a5, a6⟩ :=
    countdown_passes_running st clocks i ha hd hh hm hs 65 (by rw [ht]; decide)
  have hact : (st.timers i).active = 1 := by rw [h]
  rw [hact] at a1
  rw [ht] at a6
  unfold Timer.total at a6
  have z1 : ((countdown_passes clocks 65 st).timers i).hours = 0 := by omega
  have z2 : ((countdown_passes clocks 65 st).timers i).minutes = 0 := by omega
  have z3 : ((countdown_passes clocks 65 st).timers i).seconds = 0 := by omega
  have step : countdown_passes clocks 66 st =
      timer_countdown (clocks 65) (countdown_passes clocks 65 st) := rfl
  refine ⟨z1, z2, z3, a1, a2, ?_, ?_, ?_⟩
  · rw [step, timer_countdown_timers]
    rw [(countdown_slot_status _ _).1]; exact a1
  · rw [step, timer_countdown_timers]
    unfold countdown_slot
    rw [if_pos ⟨by rw [a1]; decide, a2⟩, if_pos ⟨z1, z2, z3⟩]
  · rw [step, timer_countdown_timers]
    unfold countdown_slot
    rw [if_pos ⟨by rw [a1]; decide, a2⟩, if_pos ⟨z1, z2, z3⟩]

/-- Witness for the amended C13: the timer `1m5s` in slot 0 of `store_set_1m5s`,
with every pass reading the clock at 1000. -/
theorem timer_1m5s_done_at_pass_66_witness :
    ((countdown_passes (fun _ _ => 1000) 65 store_set_1m5s).timers 0).done = 0 ∧
    ((countdown_passes (fun _ _ => 1000) 66 store_set_1m5s).timers 0).done = 1 ∧
    ((countdown_passes (fun _ _ => 1000) 66 store_set_1m5s).timers 0).done_time = 1000 :=
  ⟨(timer_1m5s_done_at_pass_66 store_set_1m5s (fun _ _ => 1000) 0 0 (by decide)).2.2.2.2.1,
   (timer_1m5s_done_at_pass_66 store_set_1m5s (fun _ _ => 1000) 0 0 (by decide)).2.2.2.2.2.2.1,
   (timer_1m5s_done_at_pass_66 store_set_1m5s (fun _ _ => 1000) 0 0 (by decide)).2.2.2.2.2.2.2⟩

/-! ## The end of the grace period -/

/-- C14 fails as stated: the timer of `store_done`, done at time 100, is still
active after the `update_time` pass that runs at time 107. -/
theorem freed_at_seven_fails :
    (store_done.timers 0).active ≠ 0 ∧ (store_done.timers 0).done ≠ 0 ∧
    (store_done.timers 0).done_time = 100 ∧
    ¬ (((update_time (100 + 7) ⟨8, 30, 7⟩ (fun _ => 0) (fun _ => 0) store_done).timers 0).active
        = 0) := by
  decide

/-- C14 as amended: for every active, done Timer with `done_time = d`, the
`update_time` pass that runs at time `d + 7` leaves the entry as it is (still
active), and the pass that runs at time `d + 8` sets `active = 0`. -/
theorem freed_at_eight (t : Tm) (jt : Fin MAX_TIMERS → Int) (ja : Fin MAX_ALARMS → Int)
    (st : Store) (i : Fin MAX_TIMERS)
    (ha : (st.timers i).active ≠ 0) (hd : (st.timers i).done ≠ 0) :
    (update_time ((st.timers i).done_time + 7) t jt ja st).timers i = st.timers i ∧
    ((update_time ((st.timers i).done_time + 8) t jt ja st).timers i).active = 0 := by
  constructor
  · rw [update_time_timers]
    unfold expire_timer difftime
    rw [if_neg (by intro hc; have := hc.2.2; omega)]
  · rw [update_time_timers]
    unfold expire_timer difftime
    rw [if_pos ⟨ha, hd, by omega⟩]

/-- Witness for the amended C14: the timer of `store_done` (done at 100) at
the passes of time 107 and 108. -/
theorem freed_at_eight_witness :
    (update_time (100 + 7) ⟨8, 30, 7⟩ (fun _ => 0) (fun _ => 0) store_done).timers 0
      = store_done.timers 0 ∧
    ((update_time (100 + 8) ⟨8, 30, 7⟩ (fun _ => 0) (fun _ => 0) store_done).timers 0).active
      = 0 :=
  freed_at_eight ⟨8, 30, 7⟩ (fun _ => 0) (fun _ => 0) store_done 0 (by decide) (by decide)

/-! ## The notification sound -/

/-- C15: with the outcomes of opening the audio device and of loading the
sound as inputs, a call of `jingle` that starts with `jingle_playing = 0`
returns with `jingle_playing = 0` whatever the outcomes are (its last action
is the write of 0), and it plays the sound exactly when both succeed; a call
that starts with the flag set (in particular `jingle_playing = 1`) does
nothing at all and leaves the flag as it is. -/
theorem jingle_clears_flag (open_ok load_ok : Bool) :
    (jingle 0 open_ok load_ok).jingle_playing = 0 ∧
    (jingle 0 open_ok load_ok).events.getLast? = some (Event.set_jingle_playing 0) ∧
    (Event.Mix_PlayChannel ∈ (jingle 0 open_ok load_ok).events ↔
      (open_ok = true ∧ load_ok = true)) ∧
    (∀ playing : Int, playing ≠ 0 →
      jingle playing open_ok load_ok = { jingle_playing := playing, events := [] }) ∧
    jingle 1 open_ok load_ok = { jingle_playing := 1, events := [] } := by
  refine ⟨?_, ?_, ?_, fun playing h => ?_, ?_⟩
  · cases open_ok <;> cases load_ok <;> decide
  · cases open_ok <;> cases load_ok <;> decide
  · cases open_ok <;> cases load_ok <;> decide
  · unfold jingle
    rw [if_pos h]
  · cases open_ok <;> cases load_ok <;> decide

/-- Witness for C15: a call made while the flag is 1, with a working audio
device and a loadable sound, does nothing. -/
theorem jingle_clears_flag_witness :
    jingle 1 true true = { jingle_playing := 1, events := [] } :=
  (jingle_clears_flag true true).2.2.2.1 1 (by decide)

/-! ## Trailing digits -/

theorem parse_duration_only_digits (nt : Timer) (d : List Char)
    (hd : ∀ c ∈ d, c.isDigit = true) : ∀ value : Int, parse_duration nt value d = nt := by
  induction d with
  | nil => intro value; rfl
  | cons c cs ih =>
    intro value
    have hc : c.isDigit = true := hd c (List.mem_cons_self c cs)
    unfold parse_duration
    rw [if_pos hc]
    exact ih (fun x hx => hd x (List.mem_cons_of_mem c hx)) _

theorem parse_duration_trailing_digits (w d : List Char) (hd : ∀ c ∈ d, c.isDigit = true) :
    ∀ (nt : Timer) (value : Int),
    parse_duration nt value (w ++ d) = parse_duration nt value w := by
  induction w with
  | nil =>
    intro nt value
    rw [List.nil_append, parse_duration_only_digits nt d hd value]
    rfl
  | cons c cs ih =>
    intro nt value
    rw [List.cons_append]
    unfold parse_duration
    split_ifs
    · exact ih _ _
    · exact ih _ _
    · exact ih _ _
    · exact ih _ _
    · exact ih _ _

/-- C18: for every text `w` and every text `d` of decimal digits only, the
duration parser of `set_timer` builds the same entry, hence the same hours,
minutes and seconds, from `w ++ d` as from `w`: digits at the end that no unit
letter follows are dropped.  (In the model this holds for digit runs of any
length, so in particular for those that do not overflow.) -/
theorem trailing_digits_ignored (w d : List Char) (junk : Int)
    (hd : ∀ c ∈ d, c.isDigit = true) :
    new_timer (w ++ d) junk = new_timer w junk ∧
    (new_timer (w ++ d) junk).hours = (new_timer w junk).hours ∧
    (new_timer (w ++ d) junk).minutes = (new_timer w junk).minutes ∧
    (new_timer (w ++ d) junk).seconds = (new_timer w junk).seconds := by
  have h : new_timer (w ++ d) junk = new_timer w junk :=
    parse_duration_trailing_digits w d hd _ _
  exact ⟨h, by rw [h], by rw [h], by rw [h]⟩

/-- Witness for C18: `1m5s` followed by `30` is read as `1m5s`. -/
theorem trailing_digits_ignored_witness :
    new_timer (['1', 'm', '5', 's'] ++ ['3', '0']) 0 = new_timer ['1', 'm', '5', 's'] 0 :=
  (trailing_digits_ignored ['1', 'm', '5', 's'] ['3', '0'] 0 (by decide)).1

/-! ## Field ranges under the countdown -/

/-- C19: for a Timer with `hours ≥ 0`, `0 ≤ minutes ≤ 59` and
`0 ≤ seconds ≤ 59`, the slot after one `timer_countdown` pass again has
`hours ≥ 0`, `0 ≤ minutes ≤ 59` and `0 ≤ seconds ≤ 59`.  This holds for every
slot, so in particular for the active, not-done ones, which are the only
ones the pass changes. -/
theorem timer_countdown_keeps_ranges (clock : Fin MAX_TIMERS → Int) (st : Store)
    (i : Fin MAX_TIMERS) (hh : 0 ≤ (st.timers i).hours)
    (hm0 : 0 ≤ (st.timers i).minutes) (hm1 : (st.timers i).minutes ≤ 59)
    (hs0 : 0 ≤ (st.timers i).seconds) (hs1 : (st.timers i).seconds ≤ 59) :
    0 ≤ ((timer_countdown clock st).timers i).hours ∧
    0 ≤ ((timer_countdown clock st).timers i).minutes ∧
    ((timer_countdown clock st).timers i).minutes ≤ 59 ∧
    0 ≤ ((timer_countdown clock st).timers i).seconds ∧
    ((timer_countdown clock st).timers i).seconds ≤ 59 := by
  rw [timer_countdown_timers]
  unfold countdown_slot
  split_ifs <;> refine ⟨?_, ?_, ?_, ?_, ?_⟩ <;> first | assumption | omega | (simp only []; omega)

/-- Witness for C19: the timer `00:01:05` of `store_1m5s` after one pass. -/
theorem timer_countdown_keeps_ranges_witness :
    0 ≤ ((timer_countdown (fun _ => 0) store_1m5s).timers 0).hours ∧
    0 ≤ ((timer_countdown (fun _ => 0) store_1m5s).timers 0).minutes ∧
    ((timer_countdown (fun _ => 0) store_1m5s).timers 0).minutes ≤ 59 ∧
    0 ≤ ((timer_countdown (fun _ => 0) store_1m5s).timers 0).seconds ∧
    ((timer_countdown (fun _ => 0) store_1m5s).timers 0).seconds ≤ 59 :=
  timer_countdown_keeps_ranges (fun _ => 0) store_1m5s 0 (by decide) (by decide) (by decide)
    (by decide) (by decide)

/-! ## Signs of the fields -/

theorem isDigit_bounds (c : Char) (h : c.isDigit = true) : 48 ≤ c.toNat ∧ c.toNat ≤ 57 := by
  unfold Char.isDigit at h
  simp only [Bool.and_eq_true, decide_eq_true_eq] at h
  exact ⟨h.1, h.2⟩

theorem countdown_slot_nonneg (t : Int) (e : Timer)
    (h : 0 ≤ e.hours ∧ 0 ≤ e.minutes ∧ 0 ≤ e.seconds) :
    0 ≤ (countdown_slot t e).hours ∧ 0 ≤ (countdown_slot t e).minutes ∧
    0 ≤ (countdown_slot t e).seconds := by
  obtain ⟨h1, h2, h3⟩ := h
  unfold countdown_slot
  split_ifs <;> refine ⟨?_, ?_, ?_⟩ <;> first | assumption | omega | (simp only []; omega)

theorem check_slot_fields (now : Int) (t : Tm) (a : Alarm) :
    (check_slot now t a).hours = a.hours ∧ (check_slot now t a).minutes = a.minutes ∧
    (check_slot now t a).seconds = a.seconds := by
  unfold check_slot
  split_ifs <;> exact ⟨rfl, rfl, rfl⟩

/-- The duration parser yields non-negative fields when it starts from
non-negative fields and no run of digits is longer than 9. -/
theorem parse_duration_nonneg (input : List Char) : ∀ (run : Nat) (value : Int) (nt : Timer),
    digit_runs_short run input = true → 0 ≤ value → value < 10 ^ run → run ≤ 9 →
    (0 ≤ nt.hours ∧ 0 ≤ nt.minutes ∧ 0 ≤ nt.seconds) →
    0 ≤ (parse_duration nt value input).hours ∧ 0 ≤ (parse_duration nt value input).minutes ∧
    0 ≤ (parse_duration nt value input).seconds := by
  induction input with
  | nil => intro run value nt _ _ _ _ h; exact h
  | cons c cs ih =>
    intro run value nt hr hv0 hv1 hrun h
    unfold digit_runs_short at hr
    unfold parse_duration
    by_cases hc : c.isDigit = true
    · rw [if_pos hc] at hr
      rw [if_pos hc]
      simp only [Bool.and_eq_true, decide_eq_true_eq] at hr
      obtain ⟨b1, b2⟩ := isDigit_bounds c hc
      have hp : (10 : Int) ^ (run + 1) = 10 ^ run * 10 := pow_succ 10 run
      have hle : (10 : Int) ^ (run + 1) ≤ 10 ^ 9 :=
        pow_le_pow_right₀ (by norm_num) hr.1
      have hnine : (10 : Int) ^ 9 = 1000000000 := by norm_num
      have hw : wrap32 (value * 10 + ((c.toNat : Int) - 48)) = value * 10 + ((c.toNat : Int) - 48) :=
        wrap32_of_small _ (by omega) (by omega)
      rw [hw]
      exact ih (run + 1) _ nt hr.2 (by omega) (by omega) hr.1 h
    · rw [if_neg hc] at hr
      rw [if_neg hc]
      have one : (0 : Int) < 10 ^ 0 := by norm_num
      split_ifs
      · exact ih 0 0 _ hr (le_refl 0) one (by omega) ⟨hv0, h.2.1, h.2.2⟩
      · exact ih 0 0 _ hr (le_refl 0) one (by omega) ⟨h.1, hv0, h.2.2⟩
      · exact ih 0 0 _ hr (le_refl 0) one (by omega) ⟨h.1, h.2.1, hv0⟩
      · exact ih 0 0 _ hr (le_refl 0) one (by omega) h

theorem new_timer_nonneg (input : List Char) (junk : Int)
    (h : digit_runs_short 0 input = true) :
    0 ≤ (new_timer input junk).hours ∧ 0 ≤ (new_timer input junk).minutes ∧
    0 ≤ (new_timer input junk).seconds :=
  parse_duration_nonneg input 0 0 _ h (le_refl 0) (by norm_num) (by omega)
    ⟨le_refl 0, le_refl 0, le_refl 0⟩

theorem new_alarm_nonneg (input : List Char) (pad : Nat → Int) (junk : Int)
    (h : six_digits input = true) :
    0 ≤ (new_alarm input pad junk).hours ∧ 0 ≤ (new_alarm input pad junk).minutes ∧
    0 ≤ (new_alarm input pad junk).seconds := by
  match input, h with
  | c0 :: c1 :: c2 :: c3 :: c4 :: c5 :: rest, h =>
    simp only [six_digits, Bool.and_eq_true] at h
    obtain ⟨⟨⟨⟨⟨h0, h1⟩, h2⟩, h3⟩, h4⟩, h5⟩ := h
    have b0 := (isDigit_bounds c0 h0).1
    have b1 := (isDigit_bounds c1 h1).1
    have b2 := (isDigit_bounds c2 h2).1
    have b3 := (isDigit_bounds c3 h3).1
    have b4 := (isDigit_bounds c4 h4).1
    have b5 := (isDigit_bounds c5 h5).1
    simp only [new_alarm, input_byte, List.get?]
    refine ⟨?_, ?_, ?_⟩ <;> omega

/-- A step with well-formed input keeps the hours, minutes and seconds of all
slots non-negative. -/
theorem step_fields_nonneg (st : Store) (op : Op) (hop : op.input_ok = true)
    (ht : ∀ i, 0 ≤ (st.timers i).hours ∧ 0 ≤ (st.timers i).minutes ∧ 0 ≤ (st.timers i).seconds)
    (hal : ∀ i, 0 ≤ (st.alarms i).hours ∧ 0 ≤ (st.alarms i).minutes ∧
      0 ≤ (st.alarms i).seconds) :
    (∀ i, 0 ≤ ((op.apply st).timers i).hours ∧ 0 ≤ ((op.apply st).timers i).minutes ∧
      0 ≤ ((op.apply st).timers i).seconds) ∧
    (∀ i, 0 ≤ ((op.apply st).alarms i).hours ∧ 0 ≤ ((op.apply st).alarms i).minutes ∧
      0 ≤ ((op.apply st).alarms i).seconds) := by
  cases op with
  | timer_countdown clock =>
    refine ⟨fun i => ?_, hal⟩
    simp only [Op.apply, timer_countdown_timers]
    exact countdown_slot_nonneg _ _ (ht i)
  | alarm_check now t =>
    refine ⟨ht, fun i => ?_⟩
    simp only [Op.apply, alarm_check_alarms]
    obtain ⟨e1, e2, e3⟩ := check_slot_fields now t (st.alarms i)
    rw [e1, e2, e3]
    exact hal i
  | update_time now t jt ja =>
    refine ⟨fun i => ?_, fun i => ?_⟩
    · simp only [Op.apply, update_time_timers]
      obtain ⟨e1, e2, e3, _⟩ := expire_timer_fields now (st.timers i)
      rw [e1, e2, e3]
      exact ht i
    · simp only [Op.apply, update_time_alarms]
      obtain ⟨e1, e2, e3, _⟩ := expire_alarm_fields now (st.alarms i)
      rw [e1, e2, e3]
      exact hal i
  | set_timer input junk =>
    refine ⟨fun i => ?_, hal⟩
    simp only [Op.apply, set_timer]
    rcases install_timer_slot (new_timer input junk) slots st.timers i with h | ⟨_, h⟩
    · rw [h]; exact ht i
    · rw [h]; exact new_timer_nonneg input junk hop
  | set_alarm input pad junk =>
    refine ⟨ht, fun i => ?_⟩
    simp only [Op.apply, set_alarm]
    rcases install_alarm_slot (new_alarm input pad junk) slots st.alarms i with h | ⟨_, h⟩
    · rw [h]; exact hal i
    · rw [h]; exact new_alarm_nonneg input pad junk hop

theorem run_fields_nonneg (ops : List Op) (hops : ∀ op ∈ ops, op.input_ok = true) :
    (∀ i, 0 ≤ ((run ops init).timers i).hours ∧ 0 ≤ ((run ops init).timers i).minutes ∧
      0 ≤ ((run ops init).timers i).seconds) ∧
    (∀ i, 0 ≤ ((run ops init).alarms i).hours ∧ 0 ≤ ((run ops init).alarms i).minutes ∧
      0 ≤ ((run ops init).alarms i).seconds) := by
  induction ops using List.reverseRecOn with
  | nil =>
    exact ⟨fun i => ⟨le_refl 0, le_refl 0, le_refl 0⟩, fun i => ⟨le_refl 0, le_refl 0, le_refl 0⟩⟩
  | append_singleton ops op ih =>
    obtain ⟨h1, h2⟩ := ih (fun x hx => hops x (List.mem_append_left _ hx))
    rw [run_snoc]
    exact step_fields_nonneg _ op (hops op (by simp)) h1 h2

/-- A run of ten digits can overflow the accumulator of the duration parser:
with two's complement wrap the text `3000000000s` yields a negative number
of seconds. -/
theorem new_timer_overflow :
    (new_timer ['3', '0', '0', '0', '0', '0', '0', '0', '0', '0', 's'] 0).seconds
      = -1294967296 := by
  decide

/-- C16 fails as stated: after `set_alarm` with the text `-10000` on the initial
store, alarm slot 0 is active with `hours = -29`. -/
theorem fields_nonneg_fails :
    ¬ (∀ ops : List Op,
        (∀ i, ((run ops init).timers i).active ≠ 0 →
          0 ≤ ((run ops init).timers i).hours ∧ 0 ≤ ((run ops init).timers i).minutes ∧
          0 ≤ ((run ops init).timers i).seconds) ∧
        (∀ i, ((run ops init).alarms i).active ≠ 0 →
          0 ≤ ((run ops init).alarms i).hours ∧ 0 ≤ ((run ops init).alarms i).minutes ∧
          0 ≤ ((run ops init).alarms i).seconds)) := by
  intro h
  have h1 := ((h negative_alarm_ops).2 0 (by decide)).1
  exact absurd h1 (by decide)

/-- C16 as amended: in every state reachable from the initial store by
`set_timer`, `set_alarm`, `timer_countdown`, `alarm_check` and `update_time`
steps in which every text given to `set_alarm` starts with six decimal digits
and every text given to `set_timer` has no run of more than 9 digits, every
active Timer and every active Alarm has `hours ≥ 0`, `minutes ≥ 0` and
`seconds ≥ 0`. -/
theorem fields_nonneg_of_good_input (ops : List Op) (hops : ∀ op ∈ ops, op.input_ok = true) :
    (∀ i, ((run ops init).timers i).active ≠ 0 →
      0 ≤ ((run ops init).timers i).hours ∧ 0 ≤ ((run ops init).timers i).minutes ∧
      0 ≤ ((run ops init).timers i).seconds) ∧
    (∀ i, ((run ops init).alarms i).active ≠ 0 →
      0 ≤ ((run ops init).alarms i).hours ∧ 0 ≤ ((run ops init).alarms i).minutes ∧
      0 ≤ ((run ops init).alarms i).seconds) :=
  ⟨fun i _ => (run_fields_nonneg ops hops).1 i, fun i _ => (run_fields_nonneg ops hops).2 i⟩

/-- Witness for the amended C16: after `sample_passes` the timer `5s` in slot 0
and the alarm `08:30:00` in slot 0 are active with non-negative fields. -/
theorem fields_nonneg_of_good_input_witness :
    (0 ≤ ((run sample_passes init).timers 0).hours ∧
      0 ≤ ((run sample_passes init).timers 0).minutes ∧
      0 ≤ ((run sample_passes init).timers 0).seconds) ∧
    (0 ≤ ((run sample_passes init).alarms 0).hours ∧
      0 ≤ ((run sample_passes init).alarms 0).minutes ∧
      0 ≤ ((run sample_passes init).alarms 0).seconds) :=
  ⟨(fields_nonneg_of_good_input sample_passes (by decide)).1 0 (by decide),
   (fields_nonneg_of_good_input sample_passes (by decide)).2 0 (by decide)⟩

/-! ## An alarm that cannot fire -/

theorem check_slot_bad_hours (now : Int) (t : Tm) (a : Alarm) (ht : t.valid = true)
    (hh : a.hours < 0 ∨ 23 < a.hours) : check_slot now t a = a := by
  apply check_slot_no_match
  intro hc
  unfold Tm.valid at ht
  simp only [decide_eq_true_eq] at ht
  omega

/-- A step with a valid wall-clock reading leaves a pending alarm with an
impossible hour exactly as it is. -/
theorem step_keeps_bad_alarm (st : Store) (op : Op) (i : Fin MAX_ALARMS)
    (hop : op.clock_ok = true) (ha : (st.alarms i).active ≠ 0) (hd : (st.alarms i).done = 0)
    (hh : (st.alarms i).hours < 0 ∨ 23 < (st.alarms i).hours) :
    (op.apply st).alarms i = st.alarms i := by
  cases op with
  | timer_countdown clock => rfl
  | alarm_check now t =>
    simp only [Op.apply, alarm_check_alarms]
    exact check_slot_bad_hours now t _ hop hh
  | update_time now t jt ja =>
    simp only [Op.apply, update_time_alarms]
    rcases expire_alarm_status now (st.alarms i) with h | ⟨_, h, _⟩
    · exact h
    · exact absurd hd h
  | set_timer input junk => rfl
  | set_alarm input pad junk => exact set_alarm_of_active input pad junk st i ha

theorem run_keeps_bad_alarm (ops : List Op) (i : Fin MAX_ALARMS) : ∀ st : Store,
    (∀ op ∈ ops, op.clock_ok = true) → (st.alarms i).active ≠ 0 → (st.alarms i).done = 0 →
    ((st.alarms i).hours < 0 ∨ 23 < (st.alarms i).hours) →
    (run ops st).alarms i = st.alarms i := by
  induction ops with
  | nil => intro st _ _ _ _; rfl
  | cons op rest ih =>
    intro st hops ha hd hh
    have e := step_keeps_bad_alarm st op i (hops op (List.mem_cons_self op rest)) ha hd hh
    have r := ih (op.apply st) (fun x hx => hops x (List.mem_cons_of_mem op hx))
      (by rw [e]; exact ha) (by rw [e]; exact hd) (by rw [e]; exact hh)
    simp only [run, List.foldl_cons] at r ⊢
    rw [r, e]

/-- C20: an active, not-done Alarm whose `hours` lies outside 0..23 is not
marked done by any `alarm_check` pass with a valid wall-clock reading (hour
0..23, minute 0..59, second 0..60) and is not freed by any `update_time`
pass; after any sequence of steps with valid readings the slot holds the same
entry, still active and not done. -/
theorem bad_hour_alarm_stays (st : Store) (i : Fin MAX_ALARMS)
    (ha : (st.alarms i).active ≠ 0) (hd : (st.alarms i).done = 0)
    (hh : (st.alarms i).hours < 0 ∨ 23 < (st.alarms i).hours) :
    (∀ (now : Int) (t : Tm), t.valid = true →
      ((alarm_check now t st).alarms i).done = 0 ∧ (alarm_check now t st).alarms i = st.alarms i) ∧
    (∀ (now : Int) (t : Tm) (jt : Fin MAX_TIMERS → Int) (ja : Fin MAX_ALARMS → Int),
      ((update_time now t jt ja st).alarms i).active ≠ 0 ∧
      (update_time now t jt ja st).alarms i = st.alarms i) ∧
    (∀ ops : List Op, (∀ op ∈ ops, op.clock_ok = true) →
      (run ops st).alarms i = st.alarms i ∧ ((run ops st).alarms i).active ≠ 0 ∧
      ((run ops st).alarms i).done = 0) := by
  refine ⟨fun now t ht => ?_, fun now t jt ja => ?_, fun ops hops => ?_⟩
  · have e : (alarm_check now t st).alarms i = st.alarms i := by
      rw [alarm_check_alarms]; exact check_slot_bad_hours now t _ ht hh
    exact ⟨by rw [e]; exact hd, e⟩
  · have e : (update_time now t jt ja st).alarms i = st.alarms i := by
      rw [update_time_alarms]
      rcases expire_alarm_status now (st.alarms i) with h | ⟨_, h, _⟩
      · exact h
      · exact absurd hd h
    exact ⟨by rw [e]; exact ha, e⟩
  · have e := run_keeps_bad_alarm ops i st hops ha hd hh
    exact ⟨e, by rw [e]; exact ha, by rw [e]; exact hd⟩

/-- Witness for C20: the alarm built from the text `990000` has hours 99 and
survives `sample_passes` unchanged, active and not done. -/
theorem bad_hour_alarm_stays_witness :
    (store_set_990000.alarms 0).hours = 99 ∧
    (run sample_passes store_set_990000).alarms 0 = store_set_990000.alarms 0 ∧
    ((run sample_passes store_set_990000).alarms 0).active ≠ 0 ∧
    ((run sample_passes store_set_990000).alarms 0).done = 0 :=
  ⟨by decide,
   (bad_hour_alarm_stays store_set_990000 0 (by decide) (by decide) (by decide)).2.2
     sample_passes (by decide)⟩

end Multiclock
